import Mathlib

/-!
Verification of the Bridge Connection Manager of openclaw-face-server
(src/chat/bridge.service.ts, the BridgeService class with device identity,
handshake, queueing and reconnect logic).

The TypeScript service is shallowly embedded as a state machine:

* JSON values are modelled by the inductive type JVal; JavaScript property
  access on non-objects yields jnull (JavaScript undefined and null are
  collapsed into jnull; every place the service distinguishes them is either
  a log line or an exception that the surrounding try/catch in the websocket
  message handler swallows before any state mutation, so the collapse is
  observationally equivalent).
* The bridges map, the JS heap of BridgeConnection objects, the set of
  websocket transports and the set of setTimeout timers are explicit
  association lists.  Object identity matters (the websocket event handlers
  close over the BridgeConnection object, while handleGatewayMessage looks
  the connection up by clientId afresh), so BridgeConnection records live in
  a heap addressed by numeric object ids.
* Asynchrony is modelled by a small-step scheduler: websocket open, message,
  close and error notifications, timer firings and the three public API
  calls are events; step applies one event when its preconditions hold
  (a message can only be delivered on a transport whose open event has fired
  and whose close event has not, a timer only fires after its delay, ...).
* uuidv4 is determinised into a counter, Date.now into a clock field, and
  ed25519 signing into an environment function returning the raw signature
  bytes; base64url encoding of those bytes is modelled faithfully.
* The while loop in handleConnectSuccess re-queues forever when the
  transport is not open (shift followed by push leaves the queue length
  constant); this non-termination is modelled by a diverged flag on which
  the scheduler gets stuck.
-/

/-- JSON values as produced by JSON.parse; undefined is collapsed into jnull. -/
inductive JVal where
  | jnull
  | jbool (b : Bool)
  | jnum (n : Int)
  | jstr (s : String)
  | jarr (elems : List JVal)
  | jobj (fields : List (String × JVal))

/-- First binding of a key in a JSON object field list. -/
def jfieldList : List (String × JVal) → String → JVal
  | [], _ => JVal.jnull
  | (k, v) :: rest, k0 => if k = k0 then v else jfieldList rest k0

/-- JavaScript property access v[k]; non-objects give undefined (jnull). -/
def jfield : JVal → String → JVal
  | JVal.jobj fs, k => jfieldList fs k
  | _, _ => JVal.jnull

/-- JavaScript truthiness. -/
def truthy : JVal → Bool
  | JVal.jnull => false
  | JVal.jbool b => b
  | JVal.jnum n => n != 0
  | JVal.jstr s => s != ""
  | JVal.jarr _ => true
  | JVal.jobj _ => true

/-- JavaScript strict equality of a value against a string literal. -/
def isStr (v : JVal) (s : String) : Bool :=
  match v with
  | JVal.jstr t => t == s
  | _ => false

/-- JavaScript String() coercion as used by Array.prototype.join; arrays and
objects are simplified (never reached by the service on the claims). -/
def jsToStr : JVal → String
  | JVal.jstr s => s
  | JVal.jnum n => toString n
  | JVal.jbool true => "true"
  | JVal.jbool false => "false"
  | JVal.jnull => "null"
  | JVal.jarr _ => ""
  | JVal.jobj _ => "[object Object]"

/-- Array.prototype.join with a separator. -/
def jsJoin (sep : String) : List String → String
  | [] => ""
  | x :: xs => xs.foldl (fun acc y => acc ++ sep ++ y) x

/-- Standard base64 alphabet. -/
def b64Alphabet : List Char :=
  ['A','B','C','D','E','F','G','H','I','J','K','L','M','N','O','P','Q','R','S',
   'T','U','V','W','X','Y','Z','a','b','c','d','e','f','g','h','i','j','k','l',
   'm','n','o','p','q','r','s','t','u','v','w','x','y','z','0','1','2','3','4',
   '5','6','7','8','9','+','/']

/-- Character for a 6-bit group. -/
def b64Char (n : Nat) : Char := b64Alphabet.getD (n % 64) 'A'

/-- Standard base64 of a byte sequence, chunked in threes, with padding. -/
def b64Chunks : List Nat → List Char
  | [] => []
  | [a] => [b64Char (a / 4), b64Char (a % 4 * 16), '=', '=']
  | [a, b] => [b64Char (a / 4), b64Char (a % 4 * 16 + b / 16), b64Char (b % 16 * 4), '=']
  | a :: b :: c :: rest =>
    [b64Char (a / 4), b64Char (a % 4 * 16 + b / 16), b64Char (b % 16 * 4 + c / 64),
     b64Char (c % 64)] ++ b64Chunks rest

/-- The replace(/\+/g, to minus) and replace with underscore steps. -/
def replPlus (c : Char) : Char := if c = '+' then '-' else if c = '/' then '_' else c

/-- The replace removing trailing padding characters. -/
def stripPad (cs : List Char) : List Char := (cs.reverse.dropWhile (fun c => c = '=')).reverse

/-- Base64url without padding, as computed by toString of a Buffer followed by
the three replace calls in the source. -/
def b64url (bytes : List Nat) : String := String.mk (stripPad ((b64Chunks bytes).map replPlus))

/-- Environment of the service: configured token and the ed25519 signing
primitive (crypto.sign), abstracted as the raw signature bytes it returns. -/
structure Env where
  gatewayToken : String
  signBytes : String → List Nat

/-- Device identity: stable id and encoded public key (the private key is
folded into Env.signBytes). -/
structure DeviceIdentity where
  deviceId : String
  publicKey : String

/-- One BridgeConnection object of the service (interface BridgeConnection).
The owner field is a ghost field recording which clientId the record was
created for; the code never reads it. -/
structure BridgeRecord where
  ws : Option Nat
  cb : Nat
  reconnectTimeout : Option Nat
  authenticated : Bool
  messageQueue : List JVal
  sessionKey : Option String
  owner : String

/-- One websocket transport: which clientId and which BridgeConnection object
its registered handlers close over, and which lifecycle events have fired. -/
structure TransportRec where
  boundClient : String
  boundObj : Nat
  openFired : Bool
  closeRequested : Bool
  closeFired : Bool

/-- One pending setTimeout; the reconnect callback closes over the clientId. -/
structure TimerRec where
  client : String
  delay : Nat
  armedAt : Nat
  cancelled : Bool
  fired : Bool

/-- Observable effects: a client callback invocation, a websocket send, a
websocket close request. -/
inductive Output where
  | cbCall (cb : Nat) (msg : JVal)
  | wsSend (tid : Nat) (frame : JVal)
  | wsClose (tid : Nat)

/-- Whole state of the BridgeService instance plus its JS runtime. -/
structure State where
  env : Env
  deviceIdentity : Option DeviceIdentity
  bridges : List (String × Nat)
  heap : List (Nat × BridgeRecord)
  transports : List (Nat × TransportRec)
  timers : List (Nat × TimerRec)
  nextObj : Nat
  nextTransport : Nat
  nextTimer : Nat
  uuidCtr : Nat
  now : Nat
  diverged : Bool

/-- Association list lookup (first binding wins). -/
def alookup [DecidableEq κ] : List (κ × α) → κ → Option α
  | [], _ => none
  | (k, v) :: rest, k0 => if k = k0 then some v else alookup rest k0

/-- Association list update or insert. -/
def aset [DecidableEq κ] : List (κ × α) → κ → α → List (κ × α)
  | [], k0, v0 => [(k0, v0)]
  | (k, v) :: rest, k0, v0 =>
    if k = k0 then (k0, v0) :: rest else (k, v) :: aset rest k0 v0

/-- Association list removal of all bindings of a key. -/
def adel [DecidableEq κ] : List (κ × α) → κ → List (κ × α)
  | [], _ => []
  | (k, v) :: rest, k0 => if k = k0 then adel rest k0 else (k, v) :: adel rest k0

/-- Mutate the BridgeConnection object at address o. -/
def modifyObj (s : State) (o : Nat) (f : BridgeRecord → BridgeRecord) : State :=
  match alookup s.heap o with
  | some br => { s with heap := aset s.heap o (f br) }
  | none => s

/-- Mutate the transport record at id tid. -/
def modifyTransport (s : State) (tid : Nat) (f : TransportRec → TransportRec) : State :=
  match alookup s.transports tid with
  | some tr => { s with transports := aset s.transports tid (f tr) }
  | none => s

/-- Mutate the timer record at id t. -/
def modifyTimer (s : State) (t : Nat) (f : TimerRec → TimerRec) : State :=
  match alookup s.timers t with
  | some tm => { s with timers := aset s.timers t (f tm) }
  | none => s

/-- The readyState === WebSocket.OPEN test. -/
def transportOpen (s : State) (tid : Nat) : Bool :=
  match alookup s.transports tid with
  | some tr => tr.openFired && !tr.closeRequested && !tr.closeFired
  | none => false

/-- Determinised uuidv4. -/
def uuidStr (n : Nat) : String := "uuid-" ++ toString n

/-- Method closeBridge: cancel pending reconnect timer, close the transport
while swallowing errors, remove the map entry. -/
def closeBridge (s : State) (clientId : String) : State × List Output :=
  match alookup s.bridges clientId with
  | none => (s, [])
  | some obj =>
    match alookup s.heap obj with
    | none => ({ s with bridges := adel s.bridges clientId }, [])
    | some br =>
      let s1 := match br.reconnectTimeout with
        | some t => modifyTimer s t (fun tm => { tm with cancelled := true })
        | none => s
      let step2 : State × List Output := match br.ws with
        | some tid =>
          (modifyTransport s1 tid (fun tr => { tr with closeRequested := true }),
           [Output.wsClose tid])
        | none => (s1, [])
      ({ step2.1 with bridges := adel step2.1.bridges clientId }, step2.2)

/-- Method connectToGateway: allocate a fresh websocket whose handlers close
over clientId and the current bridge object, then store it in bridge.ws. -/
def connectToGateway (s : State) (clientId : String) : State × List Output :=
  match alookup s.bridges clientId with
  | none => (s, [])
  | some obj =>
    let tid := s.nextTransport
    let tr : TransportRec :=
      { boundClient := clientId, boundObj := obj,
        openFired := false, closeRequested := false, closeFired := false }
    let s1 := { s with transports := aset s.transports tid tr,
                       nextTransport := s.nextTransport + 1 }
    (modifyObj s1 obj (fun br => { br with ws := some tid }), [])

/-- The bridge sessionKey lookup with the main default, shared by both
convert branches (bridge sessionKey or a literal main). -/
def sessionKeyLookup (s : State) (clientId : String) : String :=
  match alookup s.bridges clientId with
  | some obj =>
    match alookup s.heap obj with
    | some br =>
      match br.sessionKey with
      | some k => if k = "" then "main" else k
      | none => "main"
    | none => "main"
  | none => "main"

/-- Pure core of convertToGatewayFormat given the resolved sessionKey and the
current uuid counter; returns the frame and the new counter. -/
def convertPure (sk : String) (ctr : Nat) (message : JVal) : JVal × Nat :=
  if isStr (jfield message "type") "message" && truthy (jfield message "text") then
    let reqId := uuidStr ctr
    (JVal.jobj [("type", JVal.jstr "req"), ("id", JVal.jstr reqId),
      ("method", JVal.jstr "agent"),
      ("params", JVal.jobj [("message", jfield message "text"),
        ("sessionKey", JVal.jstr sk), ("idempotencyKey", JVal.jstr reqId)])],
     ctr + 1)
  else if isStr (jfield message "type") "history" then
    let reqId := uuidStr ctr
    (JVal.jobj [("type", JVal.jstr "req"), ("id", JVal.jstr reqId),
      ("method", JVal.jstr "sessions.history"),
      ("params", JVal.jobj [("sessionKey", JVal.jstr sk),
        ("limit", if truthy (jfield message "limit") then jfield message "limit"
                  else JVal.jnum 50)])],
     ctr + 1)
  else (message, ctr)

/-- Method convertToGatewayFormat. -/
def convertToGatewayFormat (s : State) (clientId : String) (message : JVal) : JVal × Nat :=
  convertPure (sessionKeyLookup s clientId) s.uuidCtr message

/-- Method sendRaw: send bypassing the authentication check; silently dropped
unless the transport is open. -/
def sendRaw (s : State) (clientId : String) (message : JVal) : State × List Output :=
  match alookup s.bridges clientId with
  | none => (s, [])
  | some obj =>
    match alookup s.heap obj with
    | none => (s, [])
    | some br =>
      match br.ws with
      | none => (s, [])
      | some tid =>
        if transportOpen s tid then (s, [Output.wsSend tid message]) else (s, [])

/-- Method sendMessage: queue while unauthenticated or while the transport is
not open, otherwise translate and send. -/
def sendMessage (s : State) (clientId : String) (message : JVal) : State × List Output :=
  match alookup s.bridges clientId with
  | none => (s, [])
  | some obj =>
    match alookup s.heap obj with
    | none => (s, [])
    | some br =>
      if !br.authenticated then
        (modifyObj s obj (fun b => { b with messageQueue := b.messageQueue ++ [message] }), [])
      else
        match br.ws with
        | none =>
          (modifyObj s obj (fun b => { b with messageQueue := b.messageQueue ++ [message] }), [])
        | some tid =>
          if transportOpen s tid then
            let conv := convertToGatewayFormat s clientId message
            ({ s with uuidCtr := conv.2 }, [Output.wsSend tid conv.1])
          else
            (modifyObj s obj (fun b => { b with messageQueue := b.messageQueue ++ [message] }), [])

/-- The while loop of handleConnectSuccess: shift the queue head and feed it
back through sendMessage.  The fuel is the queue length at entry; when the
transport is not open every iteration shifts and re-queues, the loop makes no
progress and the real code spins forever, recorded by the diverged flag. -/
def drainLoop : Nat → State → String → State × List Output
  | 0, s, clientId =>
    (match alookup s.bridges clientId with
     | some obj =>
       match alookup s.heap obj with
       | some br => if br.messageQueue.isEmpty then (s, []) else ({ s with diverged := true }, [])
       | none => (s, [])
     | none => (s, []))
  | fuel + 1, s, clientId =>
    match alookup s.bridges clientId with
    | none => (s, [])
    | some obj =>
      match alookup s.heap obj with
      | none => (s, [])
      | some br =>
        match br.messageQueue with
        | [] => (s, [])
        | m :: rest =>
          let s1 := modifyObj s obj (fun b => { b with messageQueue := rest })
          let r1 := sendMessage s1 clientId m
          let r2 := drainLoop fuel r1.1 clientId
          (r2.1, r1.2 ++ r2.2)

/-- The gateway connected notification delivered after the queue is drained. -/
def connectedNotif : JVal :=
  JVal.jobj [("type", JVal.jstr "gateway_connected"),
             ("payload", JVal.jobj [("status", JVal.jstr "connected")])]

/-- Method handleConnectSuccess: mark authenticated, drain the queue through
sendMessage, then notify the client. -/
def handleConnectSuccess (s : State) (clientId : String) (payload : JVal) : State × List Output :=
  match alookup s.bridges clientId with
  | none => (s, [])
  | some obj =>
    match alookup s.heap obj with
    | none => (s, [])
    | some br =>
      let s1 := modifyObj s obj (fun b => { b with authenticated := true })
      let r := drainLoop br.messageQueue.length s1 clientId
      if r.1.diverged then r
      else (r.1, r.2 ++ [Output.cbCall br.cb connectedNotif])

/-- Method signMessage: detached ed25519 signature over the exact input
bytes, base64url encoded without padding. -/
def signMessage (s : State) (message : String) : String :=
  b64url (s.env.signBytes message)

/-- Method handleConnectChallenge: build the canonical pipe-joined signing
string, sign it and send the connect request (guarded on bridge.ws and the
device identity, exactly as the source). -/
def handleConnectChallenge (s : State) (clientId : String) (payload : JVal) : State × List Output :=
  match alookup s.bridges clientId with
  | none => (s, [])
  | some obj =>
    match alookup s.heap obj with
    | none => (s, [])
    | some br =>
      match br.ws, s.deviceIdentity with
      | some _, some di =>
        let signedAt := s.now
        let scopes : List String := ["operator.read", "operator.write"]
        let signaturePayload := jsJoin "|"
          ["v2", di.deviceId, "cli", "cli", "operator", jsJoin "," scopes,
           toString signedAt,
           (if s.env.gatewayToken = "" then "" else s.env.gatewayToken),
           jsToStr (jfield payload "nonce")]
        let signature := signMessage s signaturePayload
        let reqId := uuidStr s.uuidCtr
        let connectRequest := JVal.jobj
          [("type", JVal.jstr "req"), ("id", JVal.jstr reqId),
           ("method", JVal.jstr "connect"),
           ("params", JVal.jobj
             [("minProtocol", JVal.jnum 3), ("maxProtocol", JVal.jnum 3),
              ("client", JVal.jobj [("id", JVal.jstr "cli"),
                ("version", JVal.jstr "1.0.0"), ("platform", JVal.jstr "linux"),
                ("mode", JVal.jstr "cli")]),
              ("role", JVal.jstr "operator"),
              ("scopes", JVal.jarr (scopes.map JVal.jstr)),
              ("caps", JVal.jarr []), ("commands", JVal.jarr []),
              ("permissions", JVal.jobj []),
              ("auth", JVal.jobj [("token", JVal.jstr s.env.gatewayToken)]),
              ("locale", JVal.jstr "en-US"),
              ("userAgent", JVal.jstr "openclaw-face-bridge/1.0.0"),
              ("device", JVal.jobj [("id", JVal.jstr di.deviceId),
                ("publicKey", JVal.jstr di.publicKey),
                ("signature", JVal.jstr signature),
                ("signedAt", JVal.jnum (Int.ofNat signedAt)),
                ("nonce", jfield payload "nonce")])])]
        sendRaw { s with uuidCtr := s.uuidCtr + 1 } clientId connectRequest
      | _, _ => (s, [])

/-- Method handleAgentEvent: forward streaming deltas and completion
notifications, drop everything else. -/
def handleAgentEvent (s : State) (clientId : String) (payload : JVal) : State × List Output :=
  match alookup s.bridges clientId with
  | none => (s, [])
  | some obj =>
    match alookup s.heap obj with
    | none => (s, [])
    | some br =>
      if truthy (jfield (jfield payload "delta") "text") then
        (s, [Output.cbCall br.cb (JVal.jobj
          [("type", JVal.jstr "response"),
           ("content", jfield (jfield payload "delta") "text"),
           ("streaming", JVal.jbool true),
           ("runId", jfield payload "runId")])])
      else if isStr (jfield payload "status") "completed" || isStr (jfield payload "status") "done" then
        (s, [Output.cbCall br.cb (JVal.jobj
          [("type", JVal.jstr "response_complete"),
           ("runId", jfield payload "runId")])])
      else (s, [])

/-- The ignored internal gateway event names. -/
def ignoredEvents : List String := ["tick", "health", "presence", "heartbeat", "shutdown"]

/-- The ignoredEvents.includes(message.event or empty string) test. -/
def isIgnoredEvent (ev : JVal) : Bool :=
  let e := if truthy ev then ev else JVal.jstr ""
  ignoredEvents.any (fun s => isStr e s)

/-- Method handleGatewayMessage: the event router, with branches in source
order. -/
def handleGatewayMessage (s : State) (clientId : String) (message : JVal) : State × List Output :=
  match alookup s.bridges clientId with
  | none => (s, [])
  | some obj =>
    match alookup s.heap obj with
    | none => (s, [])
    | some br =>
      if isStr (jfield message "type") "event" && isStr (jfield message "event") "connect.challenge" then
        handleConnectChallenge s clientId (jfield message "payload")
      else if isStr (jfield message "type") "res" && truthy (jfield message "ok")
          && isStr (jfield (jfield message "payload") "type") "hello-ok" then
        handleConnectSuccess s clientId (jfield message "payload")
      else if isStr (jfield message "type") "res" && !truthy (jfield message "ok") then
        (s, [Output.cbCall br.cb (JVal.jobj [("type", JVal.jstr "error"),
          ("error", jfield message "error")])])
      else if isStr (jfield message "type") "event" && isStr (jfield message "event") "agent" then
        handleAgentEvent s clientId (jfield message "payload")
      else if isStr (jfield message "type") "event" && isStr (jfield message "event") "chat" then
        (s, [Output.cbCall br.cb (jfield message "payload")])
      else if isStr (jfield message "type") "event" && isIgnoredEvent (jfield message "event") then
        (s, [])
      else if isStr (jfield message "type") "res" then
        (s, [Output.cbCall br.cb message])
      else (s, [])

/-- Method createBridge: replace-on-create, install a fresh connection record
and start connecting. -/
def createBridge (s : State) (clientId : String) (cb : Nat) : State × List Output :=
  let r1 : State × List Output :=
    if (alookup s.bridges clientId).isSome then closeBridge s clientId else (s, [])
  let obj := r1.1.nextObj
  let br : BridgeRecord :=
    { ws := none, cb := cb, reconnectTimeout := none, authenticated := false,
      messageQueue := [], sessionKey := none, owner := clientId }
  let s2 := { r1.1 with heap := aset r1.1.heap obj br,
                        bridges := aset r1.1.bridges clientId obj,
                        nextObj := r1.1.nextObj + 1 }
  let r3 := connectToGateway s2 clientId
  (r3.1, r1.2 ++ r3.2)

/-- The ws open handler: store the socket in the captured bridge object. -/
def wsOpenHandler (s : State) (tid : Nat) (tr : TransportRec) : State :=
  modifyTransport (modifyObj s tr.boundObj (fun b => { b with ws := some tid })) tid
    (fun t => { t with openFired := true })

/-- The ws close handler: null the captured object ws, reset authenticated,
and arm a 5000 ms reconnect timer when the clientId is still mapped. -/
def wsCloseHandler (s : State) (tid : Nat) (tr : TransportRec) : State :=
  let s1 := modifyObj s tr.boundObj (fun b => { b with ws := none, authenticated := false })
  let s2 :=
    if (alookup s1.bridges tr.boundClient).isSome then
      let t := s1.nextTimer
      let s1a := { s1 with
        timers := aset s1.timers t
          { client := tr.boundClient, delay := 5000, armedAt := s1.now,
            cancelled := false, fired := false },
        nextTimer := s1.nextTimer + 1 }
      modifyObj s1a tr.boundObj (fun b => { b with reconnectTimeout := some t })
    else s1
  modifyTransport s2 tid (fun t => { t with closeFired := true })

/-- Scheduler events: API calls, websocket lifecycle notifications, timer
firings and clock advance. -/
inductive MEvent where
  | create (clientId : String) (cb : Nat)
  | send (clientId : String) (message : JVal)
  | close (clientId : String)
  | wsOpen (tid : Nat)
  | wsMsg (tid : Nat) (frame : JVal)
  | wsClosed (tid : Nat)
  | wsError (tid : Nat)
  | timerFire (t : Nat)
  | tick (d : Nat)

/-- One scheduler step; none when the event is not deliverable in s. -/
def step (s : State) (e : MEvent) : Option (State × List Output) :=
  if s.diverged then none else
  match e with
  | MEvent.create cid cb => some (createBridge s cid cb)
  | MEvent.send cid m => some (sendMessage s cid m)
  | MEvent.close cid => some (closeBridge s cid)
  | MEvent.wsOpen tid =>
    match alookup s.transports tid with
    | some tr =>
      if tr.openFired || tr.closeRequested || tr.closeFired then none
      else some (wsOpenHandler s tid tr, [])
    | none => none
  | MEvent.wsMsg tid frame =>
    match alookup s.transports tid with
    | some tr =>
      if tr.openFired && !tr.closeFired then some (handleGatewayMessage s tr.boundClient frame)
      else none
    | none => none
  | MEvent.wsClosed tid =>
    match alookup s.transports tid with
    | some tr => if tr.closeFired then none else some (wsCloseHandler s tid tr, [])
    | none => none
  | MEvent.wsError tid =>
    match alookup s.transports tid with
    | some tr => if tr.closeFired then none else some (s, [])
    | none => none
  | MEvent.timerFire t =>
    match alookup s.timers t with
    | some tm =>
      if tm.cancelled || tm.fired || decide (s.now < tm.armedAt + tm.delay) then none
      else
        let s1 := modifyTimer s t (fun x => { x with fired := true })
        if (alookup s1.bridges tm.client).isSome then some (connectToGateway s1 tm.client)
        else some (s1, [])
    | none => none
  | MEvent.tick d => some ({ s with now := s.now + d }, [])

/-- Run a sequence of events, concatenating the observable outputs. -/
def run (s : State) : List MEvent → Option (State × List Output)
  | [] => some (s, [])
  | e :: es =>
    match step s e with
    | none => none
    | some (s1, o1) =>
      match run s1 es with
      | none => none
      | some (s2, o2) => some (s2, o1 ++ o2)

/-- Run a sequence of events keeping, for each step, the pre-state, the event
and that step's outputs. -/
def runTrace (s : State) : List MEvent → Option (List (State × MEvent × List Output) × State)
  | [] => some ([], s)
  | e :: es =>
    match step s e with
    | none => none
    | some (s1, o1) =>
      match runTrace s1 es with
      | none => none
      | some (tr, s2) => some ((s, e, o1) :: tr, s2)

/-- State right after module init: identity generated, nothing registered. -/
def initState (env : Env) (di : Option DeviceIdentity) : State :=
  { env := env, deviceIdentity := di, bridges := [], heap := [], transports := [],
    timers := [], nextObj := 0, nextTransport := 0, nextTimer := 0, uuidCtr := 0,
    now := 0, diverged := false }

/-- A concrete environment for witnesses: some token, a signer returning 64
bytes as an ed25519 implementation does. -/
def exEnv : Env := { gatewayToken := "tok", signBytes := fun _ => List.replicate 64 7 }

/-- A concrete device identity for witnesses. -/
def exIdent : DeviceIdentity := { deviceId := "dev1", publicKey := "pk" }

/-- Concrete initial state for witnesses and counterexamples. -/
def initEx : State := initState exEnv (some exIdent)

/-- The sessionKey a bridge record resolves to (main unless set nonempty). -/
def sessionKeyOf (br : BridgeRecord) : String :=
  match br.sessionKey with
  | some k => if k = "" then "main" else k
  | none => "main"

/-- Translate a list of client messages in order, threading the uuid counter,
exactly as repeated live sends would. -/
def convertAll (sk : String) : Nat → List JVal → List JVal
  | _, [] => []
  | ctr, m :: ms =>
    let p := convertPure sk ctr m
    p.1 :: convertAll sk p.2 ms

/-- Submit a list of messages through sendMessage in order. -/
def sendAll (s : State) (clientId : String) : List JVal → State × List Output
  | [] => (s, [])
  | m :: ms =>
    let r1 := sendMessage s clientId m
    let r2 := sendAll r1.1 clientId ms
    (r2.1, r1.2 ++ r2.2)

/-- A failed gateway response frame. -/
def errFrame : JVal :=
  JVal.jobj [("type", JVal.jstr "res"), ("ok", JVal.jbool false), ("error", JVal.jstr "boom")]

/-- A successful handshake response frame. -/
def helloOkFrame : JVal :=
  JVal.jobj [("type", JVal.jstr "res"), ("ok", JVal.jbool true),
             ("payload", JVal.jobj [("type", JVal.jstr "hello-ok")])]

/-- A connect.challenge event frame carrying a nonce. -/
def challengeFrame (nonce : String) : JVal :=
  JVal.jobj [("type", JVal.jstr "event"), ("event", JVal.jstr "connect.challenge"),
             ("payload", JVal.jobj [("nonce", JVal.jstr nonce), ("ts", JVal.jnum 1000)])]

/-- A history request with limit 10 in the client vocabulary. -/
def historyMsg : JVal := JVal.jobj [("type", JVal.jstr "history"), ("limit", JVal.jnum 10)]

/-- Authentication flag and transport handle of the bridge currently mapped
for a clientId. -/
def bridgeView (s : State) (cid : String) : Option (Bool × Option Nat) :=
  match alookup s.bridges cid with
  | some o => (alookup s.heap o).map (fun br => (br.authenticated, br.ws))
  | none => none

/-- Close then immediately recreate the session c1, then deliver a failure
response on the superseded transport 0 while the replacement transport 1 is
still connecting. -/
def c1Events : List MEvent :=
  [MEvent.create "c1" 1, MEvent.wsOpen 0, MEvent.close "c1", MEvent.create "c1" 2,
   MEvent.wsMsg 0 errFrame]

/-- Deliver a challenge on the open transport of a fresh session. -/
def c3Events : List MEvent :=
  [MEvent.create "c1" 1, MEvent.wsOpen 0, MEvent.wsMsg 0 (challengeFrame "abc")]

/-- Queue a history request before authentication, then complete the
handshake. -/
def c4Events : List MEvent :=
  [MEvent.create "c1" 1, MEvent.wsOpen 0, MEvent.send "c1" historyMsg,
   MEvent.wsMsg 0 helloOkFrame]

/-- Close then recreate c1; the superseded transport 0 then reports close,
arming a reconnect timer on the detached record; finally close c1 again. -/
def c6Events : List MEvent :=
  [MEvent.create "c1" 1, MEvent.wsOpen 0, MEvent.close "c1", MEvent.create "c1" 2,
   MEvent.wsClosed 0, MEvent.close "c1"]

/-- Close then immediately recreate c1, then deliver a stale hello-ok on the
superseded transport 0 while the replacement transport 1 is connecting. -/
def c9Events : List MEvent :=
  [MEvent.create "c1" 1, MEvent.wsOpen 0, MEvent.close "c1", MEvent.create "c1" 2,
   MEvent.wsMsg 0 helloOkFrame]

/-- State reached from the concrete initial state by a list of events
(falling back to the initial state if the schedule is not enabled; all uses
are on enabled schedules). -/
def stateAfter (evs : List MEvent) : State :=
  match run initEx evs with
  | some p => p.1
  | none => initEx

/-- The bridge record of a fresh session c1 with callback 7 whose transport 0
has opened. -/
def freshBr : BridgeRecord :=
  { ws := some 0, cb := 7, reconnectTimeout := none, authenticated := false,
    messageQueue := [], sessionKey := none, owner := "c1" }

/-- The bridge record of session c1 with callback 7 after its handshake has
completed on transport 0. -/
def authedBr : BridgeRecord :=
  { ws := some 0, cb := 7, reconnectTimeout := none, authenticated := true,
    messageQueue := [], sessionKey := none, owner := "c1" }

/-- The canonical pipe-delimited signing string as the specification
enumerates it: protocol tag, device id, literal client id, literal client
mode, role literal, comma-joined scopes, stringified signing timestamp in
milliseconds, configured gateway token (empty string if unset), challenge
nonce. -/
def canonicalSigningString (di : DeviceIdentity) (now : Nat) (token nonce : String) : String :=
  "v2" ++ "|" ++ di.deviceId ++ "|" ++ "cli" ++ "|" ++ "cli" ++ "|" ++ "operator" ++ "|" ++
    "operator.read" ++ "," ++ "operator.write" ++ "|" ++ toString now ++ "|" ++ token ++
    "|" ++ nonce

/-- The bridge record of session c1 with callback 7 after its transport 0
reported close and the 5-second reconnect timer 0 was armed. -/
def closedBr : BridgeRecord :=
  { ws := none, cb := 7, reconnectTimeout := some 0, authenticated := false,
    messageQueue := [], sessionKey := none, owner := "c1" }

/-- The reconnect timer armed for c1 at time 0. -/
def armedTimer : TimerRec :=
  { client := "c1", delay := 5000, armedAt := 0, cancelled := false, fired := false }

/-! Association list lemmas. -/

theorem alookup_aset_self [DecidableEq κ] (l : List (κ × α)) (k : κ) (v : α) :
    alookup (aset l k v) k = some v := by
  induction l with
  | nil => simp [aset, alookup]
  | cons h t ih =>
    obtain ⟨k1, v1⟩ := h
    by_cases hk : k1 = k
    · subst hk; simp [aset, alookup]
    · simp [aset, alookup, hk, ih]

theorem alookup_aset_ne [DecidableEq κ] (l : List (κ × α)) (k k0 : κ) (v : α)
    (h : k ≠ k0) : alookup (aset l k v) k0 = alookup l k0 := by
  induction l with
  | nil => simp [aset, alookup, h]
  | cons hd t ih =>
    obtain ⟨k1, v1⟩ := hd
    by_cases hk : k1 = k
    · subst hk; simp [aset, alookup, h]
    · simp [aset, alookup, hk, ih]

theorem alookup_adel [DecidableEq κ] (l : List (κ × α)) (k k0 : κ) :
    alookup (adel l k) k0 = if k = k0 then none else alookup l k0 := by
  induction l with
  | nil => simp [adel, alookup]
  | cons hd t ih =>
    obtain ⟨k1, v1⟩ := hd
    by_cases hk : k1 = k
    · subst hk
      by_cases hk0 : k1 = k0
      · subst hk0; simp [adel, alookup, ih]
      · simp [adel, alookup, hk0, ih]
    · by_cases hk0 : k1 = k0
      · subst hk0
        have : k ≠ k1 := fun h => hk h.symm
        simp [adel, alookup, hk, this]
      · simp [adel, alookup, hk, hk0, ih]

theorem alookup_aset_some [DecidableEq κ] (l : List (κ × α)) (k k0 : κ) (v w : α)
    (h : alookup (aset l k v) k0 = some w) :
    (k0 = k ∧ w = v) ∨ alookup l k0 = some w := by
  by_cases hk : k = k0
  · subst hk
    rw [alookup_aset_self] at h
    exact Or.inl ⟨rfl, (Option.some_inj.mp h).symm⟩
  · rw [alookup_aset_ne _ _ _ _ hk] at h
    exact Or.inr h

/-! Base64url lemmas. -/

theorem b64Char_ne_pad (n : Nat) : b64Char n ≠ '=' := by
  have h64 : n % 64 < 64 := Nat.mod_lt _ (by decide)
  have hall : ∀ k, k < 64 → b64Alphabet.getD k 'A' ≠ '=' := by decide
  exact hall _ h64

theorem replPlus_ne_pad (c : Char) (h : c ≠ '=') : replPlus c ≠ '=' := by
  unfold replPlus
  split
  · decide
  · split
    · decide
    · exact h

theorem stripPad_ne_nil (c : Char) (cs : List Char) (h : c ≠ '=') :
    stripPad (c :: cs) ≠ [] := by
  intro hn
  unfold stripPad at hn
  rw [List.reverse_eq_nil_iff] at hn
  rw [List.dropWhile_eq_nil_iff] at hn
  exact absurd (hn c (by simp)) (by simpa using h)

theorem b64Chunks_cons (a : Nat) (xs : List Nat) :
    ∃ t, b64Chunks (a :: xs) = b64Char (a / 4) :: t := by
  match xs with
  | [] => exact ⟨_, rfl⟩
  | [b] => exact ⟨_, rfl⟩
  | b :: c :: r => exact ⟨_, rfl⟩

theorem b64url_ne_empty (bytes : List Nat) (h : bytes ≠ []) : b64url bytes ≠ "" := by
  obtain ⟨a, xs, rfl⟩ : ∃ a xs, bytes = a :: xs := by
    cases bytes with
    | nil => exact absurd rfl h
    | cons a xs => exact ⟨a, xs, rfl⟩
  obtain ⟨t, ht⟩ := b64Chunks_cons a xs
  unfold b64url
  rw [ht]
  intro hs
  have hdata : stripPad (List.map replPlus (b64Char (a / 4) :: t)) = [] :=
    congrArg String.data hs
  rw [List.map_cons] at hdata
  exact stripPad_ne_nil _ _ (replPlus_ne_pad _ (b64Char_ne_pad _)) hdata

/-! State plumbing lemmas. -/

theorem modifyObj_bridges (s : State) (o : Nat) (f : BridgeRecord → BridgeRecord) :
    (modifyObj s o f).bridges = s.bridges := by
  unfold modifyObj; cases alookup s.heap o <;> rfl

theorem modifyObj_transports (s : State) (o : Nat) (f : BridgeRecord → BridgeRecord) :
    (modifyObj s o f).transports = s.transports := by
  unfold modifyObj; cases alookup s.heap o <;> rfl

theorem modifyObj_timers (s : State) (o : Nat) (f : BridgeRecord → BridgeRecord) :
    (modifyObj s o f).timers = s.timers := by
  unfold modifyObj; cases alookup s.heap o <;> rfl

theorem modifyObj_uuidCtr (s : State) (o : Nat) (f : BridgeRecord → BridgeRecord) :
    (modifyObj s o f).uuidCtr = s.uuidCtr := by
  unfold modifyObj; cases alookup s.heap o <;> rfl

theorem modifyObj_diverged (s : State) (o : Nat) (f : BridgeRecord → BridgeRecord) :
    (modifyObj s o f).diverged = s.diverged := by
  unfold modifyObj; cases alookup s.heap o <;> rfl

theorem modifyObj_now (s : State) (o : Nat) (f : BridgeRecord → BridgeRecord) :
    (modifyObj s o f).now = s.now := by
  unfold modifyObj; cases alookup s.heap o <;> rfl

theorem modifyObj_deviceIdentity (s : State) (o : Nat) (f : BridgeRecord → BridgeRecord) :
    (modifyObj s o f).deviceIdentity = s.deviceIdentity := by
  unfold modifyObj; cases alookup s.heap o <;> rfl

theorem modifyObj_env (s : State) (o : Nat) (f : BridgeRecord → BridgeRecord) :
    (modifyObj s o f).env = s.env := by
  unfold modifyObj; cases alookup s.heap o <;> rfl

theorem modifyObj_heap_self (s : State) (o : Nat) (f : BridgeRecord → BridgeRecord)
    (br : BridgeRecord) (h : alookup s.heap o = some br) :
    alookup (modifyObj s o f).heap o = some (f br) := by
  unfold modifyObj; rw [h]; exact alookup_aset_self _ _ _

theorem modifyObj_heap_ne (s : State) (o o2 : Nat) (f : BridgeRecord → BridgeRecord)
    (h : o ≠ o2) : alookup (modifyObj s o f).heap o2 = alookup s.heap o2 := by
  unfold modifyObj
  cases halt : alookup s.heap o with
  | none => rfl
  | some br => exact alookup_aset_ne _ _ _ _ h

theorem transportOpen_congr (s1 s : State) (tid : Nat) (h : s1.transports = s.transports) :
    transportOpen s1 tid = transportOpen s tid := by
  unfold transportOpen; rw [h]

theorem transportOpen_modifyObj (s : State) (o : Nat) (f : BridgeRecord → BridgeRecord)
    (tid : Nat) : transportOpen (modifyObj s o f) tid = transportOpen s tid :=
  transportOpen_congr _ _ _ (modifyObj_transports s o f)

theorem sessionKeyLookup_eq (s : State) (cid : String) (obj : Nat) (br : BridgeRecord)
    (hb : alookup s.bridges cid = some obj) (hh : alookup s.heap obj = some br) :
    sessionKeyLookup s cid = sessionKeyOf br := by
  unfold sessionKeyLookup sessionKeyOf; simp only [hb, hh]

theorem convertToGatewayFormat_eq (s : State) (cid : String) (obj : Nat) (br : BridgeRecord)
    (m : JVal) (hb : alookup s.bridges cid = some obj) (hh : alookup s.heap obj = some br) :
    convertToGatewayFormat s cid m = convertPure (sessionKeyOf br) s.uuidCtr m := by
  unfold convertToGatewayFormat; rw [sessionKeyLookup_eq s cid obj br hb hh]

/-! Lemmas about sendMessage. -/

theorem sendMessage_not_auth (s : State) (cid : String) (obj : Nat) (br : BridgeRecord)
    (m : JVal) (hb : alookup s.bridges cid = some obj) (hh : alookup s.heap obj = some br)
    (hauth : br.authenticated = false) :
    sendMessage s cid m =
      (modifyObj s obj (fun b => { b with messageQueue := b.messageQueue ++ [m] }), []) := by
  unfold sendMessage; simp only [hb, hh, hauth, Bool.not_false, if_true]

theorem sendMessage_live (s : State) (cid : String) (obj : Nat) (br : BridgeRecord)
    (m : JVal) (tid : Nat) (hb : alookup s.bridges cid = some obj)
    (hh : alookup s.heap obj = some br) (hauth : br.authenticated = true)
    (hws : br.ws = some tid) (hopen : transportOpen s tid = true) :
    sendMessage s cid m =
      ({ s with uuidCtr := (convertPure (sessionKeyOf br) s.uuidCtr m).2 },
       [Output.wsSend tid (convertPure (sessionKeyOf br) s.uuidCtr m).1]) := by
  unfold sendMessage
  simp only [hb, hh, hauth, hws, Bool.not_true, Bool.false_eq_true, if_false, hopen, if_true]
  rw [convertToGatewayFormat_eq s cid obj br m hb hh]

/-! The queue drain performed by handleConnectSuccess on a live transport. -/

theorem drainLoop_live (q : List JVal) :
    ∀ (s : State) (cid : String) (obj : Nat) (br : BridgeRecord) (tid : Nat),
    alookup s.bridges cid = some obj → alookup s.heap obj = some br →
    br.messageQueue = q → br.authenticated = true → br.ws = some tid →
    transportOpen s tid = true →
    ∃ s1, drainLoop q.length s cid =
        (s1, (convertAll (sessionKeyOf br) s.uuidCtr q).map (fun g => Output.wsSend tid g)) ∧
      s1.bridges = s.bridges ∧
      alookup s1.heap obj = some { br with messageQueue := [] } ∧
      s1.transports = s.transports ∧ s1.diverged = s.diverged := by
  induction q with
  | nil =>
    intro s cid obj br tid hb hh hq hauth hws hopen
    have hbr : { br with messageQueue := ([] : List JVal) } = br := by
      cases br; simp_all
    refine ⟨s, ?_, rfl, ?_, rfl, rfl⟩
    · show drainLoop 0 s cid = _
      unfold drainLoop
      simp only [hb, hh, hq, List.isEmpty_nil, if_true, convertAll, List.map_nil]
    · rw [hbr]; exact hh
  | cons m ms ih =>
    intro s cid obj br tid hb hh hq hauth hws hopen
    set s1 := modifyObj s obj (fun b => { b with messageQueue := ms }) with hs1def
    have hs1b : alookup s1.bridges cid = some obj := by
      rw [hs1def, modifyObj_bridges]; exact hb
    have hs1h : alookup s1.heap obj = some { br with messageQueue := ms } := by
      rw [hs1def]; exact modifyObj_heap_self s obj _ br hh
    have hopen1 : transportOpen s1 tid = true := by
      rw [hs1def, transportOpen_modifyObj]; exact hopen
    have hu1 : s1.uuidCtr = s.uuidCtr := by rw [hs1def]; exact modifyObj_uuidCtr s obj _
    have hsend := sendMessage_live s1 cid obj { br with messageQueue := ms } m tid
      hs1b hs1h hauth hws hopen1
    set s2 : State :=
      { s1 with uuidCtr := (convertPure (sessionKeyOf { br with messageQueue := ms }) s1.uuidCtr m).2 }
      with hs2def
    have hs2b : alookup s2.bridges cid = some obj := hs1b
    have hs2h : alookup s2.heap obj = some { br with messageQueue := ms } := hs1h
    have hopen2 : transportOpen s2 tid = true := hopen1
    obtain ⟨s3, hdl, hbrg, hhp, htr, hdv⟩ :=
      ih s2 cid obj { br with messageQueue := ms } tid hs2b hs2h rfl hauth hws hopen2
    refine ⟨s3, ?_, ?_, ?_, ?_, ?_⟩
    · show drainLoop (ms.length + 1) s cid = _
      unfold drainLoop
      simp only [hb, hh, hq]
      rw [← hs1def, hsend]
      dsimp only
      rw [hdl]
      have hctr : s2.uuidCtr = (convertPure (sessionKeyOf br) s.uuidCtr m).2 := by
        show (convertPure (sessionKeyOf { br with messageQueue := ms }) s1.uuidCtr m).2 = _
        rw [hu1]
        rfl
      rw [hctr, hu1]
      simp only [convertAll, List.map_cons, List.singleton_append]
      rfl
    · rw [hbrg, hs2def]
      show s1.bridges = s.bridges
      rw [hs1def, modifyObj_bridges]
    · exact hhp
    · rw [htr, hs2def]
      show s1.transports = s.transports
      rw [hs1def, modifyObj_transports]
    · rw [hdv, hs2def]
      show s1.diverged = s.diverged
      rw [hs1def, modifyObj_diverged]

/-! Handshake success on a live transport: drain then notify. -/

theorem handleConnectSuccess_live (s : State) (cid : String) (obj : Nat) (br : BridgeRecord)
    (tid : Nat) (payload : JVal) (hb : alookup s.bridges cid = some obj)
    (hh : alookup s.heap obj = some br) (hws : br.ws = some tid)
    (hopen : transportOpen s tid = true) (hdiv : s.diverged = false) :
    ∃ s2, handleConnectSuccess s cid payload =
        (s2, (convertAll (sessionKeyOf br) s.uuidCtr br.messageQueue).map
               (fun g => Output.wsSend tid g) ++ [Output.cbCall br.cb connectedNotif]) ∧
      s2.bridges = s.bridges ∧
      alookup s2.heap obj = some { br with messageQueue := [], authenticated := true } ∧
      s2.transports = s.transports ∧ s2.diverged = false := by
  set s1 := modifyObj s obj (fun b => { b with authenticated := true }) with hs1def
  have hs1b : alookup s1.bridges cid = some obj := by
    rw [hs1def, modifyObj_bridges]; exact hb
  have hs1h : alookup s1.heap obj = some { br with authenticated := true } := by
    rw [hs1def]; exact modifyObj_heap_self s obj _ br hh
  have hopen1 : transportOpen s1 tid = true := by
    rw [hs1def, transportOpen_modifyObj]; exact hopen
  obtain ⟨s2, hdl, hbrg, hhp, htr, hdv⟩ :=
    drainLoop_live br.messageQueue s1 cid obj { br with authenticated := true } tid
      hs1b hs1h rfl rfl hws hopen1
  have hdiv2 : s2.diverged = false := by
    rw [hdv, hs1def, modifyObj_diverged]; exact hdiv
  refine ⟨s2, ?_, ?_, ?_, ?_, hdiv2⟩
  · unfold handleConnectSuccess
    simp only [hb, hh]
    rw [← hs1def]
    have hlen : ({ br with authenticated := true } : BridgeRecord).messageQueue.length
        = br.messageQueue.length := rfl
    rw [← hlen, hdl]
    dsimp only
    rw [hdiv2]
    have hu1 : s1.uuidCtr = s.uuidCtr := by rw [hs1def]; exact modifyObj_uuidCtr s obj _
    simp only [Bool.false_eq_true, if_false, hu1]
    rfl
  · rw [hbrg, hs1def, modifyObj_bridges]
  · have : ({ ({ br with authenticated := true } : BridgeRecord) with messageQueue := ([] : List JVal) })
        = { br with messageQueue := [], authenticated := true } := rfl
    rw [← this]; exact hhp
  · rw [htr, hs1def, modifyObj_transports]

/-- The router sends a hello-ok response into handleConnectSuccess. -/
theorem handleGatewayMessage_helloOk (s : State) (cid : String) (obj : Nat) (br : BridgeRecord)
    (hb : alookup s.bridges cid = some obj) (hh : alookup s.heap obj = some br) :
    handleGatewayMessage s cid helloOkFrame =
      handleConnectSuccess s cid (JVal.jobj [("type", JVal.jstr "hello-ok")]) := by
  unfold handleGatewayMessage
  simp only [hb, hh]
  rfl

/-! Queueing before authentication. -/

theorem sendAll_not_auth (msgs : List JVal) :
    ∀ (s : State) (cid : String) (obj : Nat) (br : BridgeRecord),
    alookup s.bridges cid = some obj → alookup s.heap obj = some br →
    br.authenticated = false →
    ∃ s1, sendAll s cid msgs = (s1, []) ∧
      s1.bridges = s.bridges ∧
      alookup s1.heap obj = some { br with messageQueue := br.messageQueue ++ msgs } ∧
      s1.transports = s.transports ∧ s1.uuidCtr = s.uuidCtr ∧
      s1.diverged = s.diverged ∧ s1.deviceIdentity = s.deviceIdentity ∧ s1.now = s.now ∧
      s1.env = s.env := by
  induction msgs with
  | nil =>
    intro s cid obj br hb hh hauth
    have hbr : { br with messageQueue := br.messageQueue ++ [] } = br := by
      cases br; simp
    refine ⟨s, rfl, rfl, ?_, rfl, rfl, rfl, rfl, rfl, rfl⟩
    rw [hbr]; exact hh
  | cons m ms ih =>
    intro s cid obj br hb hh hauth
    set s1 := modifyObj s obj (fun b => { b with messageQueue := b.messageQueue ++ [m] }) with hs1def
    have hs1b : alookup s1.bridges cid = some obj := by
      rw [hs1def, modifyObj_bridges]; exact hb
    have hs1h : alookup s1.heap obj = some { br with messageQueue := br.messageQueue ++ [m] } := by
      rw [hs1def]; exact modifyObj_heap_self s obj _ br hh
    obtain ⟨s2, hsend, hbrg, hhp, htr, hu, hdv, hdi, hnow, henv⟩ :=
      ih s1 cid obj { br with messageQueue := br.messageQueue ++ [m] } hs1b hs1h hauth
    refine ⟨s2, ?_, ?_, ?_, ?_, ?_, ?_, ?_, ?_, ?_⟩
    · show (let r1 := sendMessage s cid m
            let r2 := sendAll r1.1 cid ms
            (r2.1, r1.2 ++ r2.2)) = (s2, [])
      rw [sendMessage_not_auth s cid obj br m hb hh hauth]
      dsimp only
      rw [← hs1def, hsend]
      rfl
    · rw [hbrg, hs1def, modifyObj_bridges]
    · have : ({ ({ br with messageQueue := br.messageQueue ++ [m] } : BridgeRecord) with
          messageQueue := (br.messageQueue ++ [m]) ++ ms }) =
          { br with messageQueue := br.messageQueue ++ (m :: ms) } := by
        cases br; simp
      rw [← this]; exact hhp
    · rw [htr, hs1def, modifyObj_transports]
    · rw [hu, hs1def, modifyObj_uuidCtr]
    · rw [hdv, hs1def, modifyObj_diverged]
    · rw [hdi, hs1def, modifyObj_deviceIdentity]
    · rw [hnow, hs1def, modifyObj_now]
    · rw [henv, hs1def, modifyObj_env]

/-- C2: every sendMessage call made on an existing bridge before
authentication appends the message to the outbound queue, and on handshake
success every queued message is sent in exactly the order submitted, each
through the same translation (convertPure, threading the uuid counter) and
delivery path as a live send, none dropped and none duplicated, followed by
exactly one connected notification to the client callback. -/
theorem c2_queue_drained_fifo (s : State) (cid : String) (obj : Nat) (br : BridgeRecord)
    (tid : Nat) (msgs : List JVal)
    (hb : alookup s.bridges cid = some obj) (hh : alookup s.heap obj = some br)
    (hauth : br.authenticated = false) (hws : br.ws = some tid)
    (hopen : transportOpen s tid = true) (hdiv : s.diverged = false) :
    ∃ s1 s2,
      sendAll s cid msgs = (s1, []) ∧
      alookup s1.heap obj = some { br with messageQueue := br.messageQueue ++ msgs } ∧
      handleGatewayMessage s1 cid helloOkFrame =
        (s2, (convertAll (sessionKeyOf br) s.uuidCtr (br.messageQueue ++ msgs)).map
               (fun g => Output.wsSend tid g) ++ [Output.cbCall br.cb connectedNotif]) ∧
      alookup s2.heap obj = some { br with messageQueue := [], authenticated := true } := by
  obtain ⟨s1, hsd, hbrg1, hhp1, htr1, hu1, hdv1, hdi1, hnow1, henv1⟩ :=
    sendAll_not_auth msgs s cid obj br hb hh hauth
  have hb1 : alookup s1.bridges cid = some obj := by rw [hbrg1]; exact hb
  have hopen1 : transportOpen s1 tid = true := by
    rw [transportOpen_congr s1 s tid htr1]; exact hopen
  have hdiv1 : s1.diverged = false := by rw [hdv1]; exact hdiv
  obtain ⟨s2, hsucc, hbrg2, hhp2, htr2, hdv2⟩ :=
    handleConnectSuccess_live s1 cid obj { br with messageQueue := br.messageQueue ++ msgs } tid
      (JVal.jobj [("type", JVal.jstr "hello-ok")]) hb1 hhp1 hws hopen1 hdiv1
  refine ⟨s1, s2, hsd, hhp1, ?_, hhp2⟩
  rw [handleGatewayMessage_helloOk s1 cid obj _ hb1 hhp1, hsucc, hu1]
  rfl

/-- C2 witness: a concrete fresh session with one message submitted before
authentication; all hypotheses hold by evaluation. -/
theorem c2_queue_drained_fifo_witness :
    (alookup (stateAfter [MEvent.create "c1" 7, MEvent.wsOpen 0]).bridges "c1" = some 0 ∧
     alookup (stateAfter [MEvent.create "c1" 7, MEvent.wsOpen 0]).heap 0 = some freshBr ∧
     freshBr.authenticated = false ∧ freshBr.ws = some 0 ∧
     transportOpen (stateAfter [MEvent.create "c1" 7, MEvent.wsOpen 0]) 0 = true ∧
     (stateAfter [MEvent.create "c1" 7, MEvent.wsOpen 0]).diverged = false) ∧
    (∃ s1 s2,
      sendAll (stateAfter [MEvent.create "c1" 7, MEvent.wsOpen 0]) "c1"
          [JVal.jobj [("type", JVal.jstr "message"), ("text", JVal.jstr "hi")]] = (s1, []) ∧
      alookup s1.heap 0 = some { freshBr with messageQueue := freshBr.messageQueue ++
          [JVal.jobj [("type", JVal.jstr "message"), ("text", JVal.jstr "hi")]] } ∧
      handleGatewayMessage s1 "c1" helloOkFrame =
        (s2, (convertAll (sessionKeyOf freshBr)
                (stateAfter [MEvent.create "c1" 7, MEvent.wsOpen 0]).uuidCtr
                (freshBr.messageQueue ++
                  [JVal.jobj [("type", JVal.jstr "message"), ("text", JVal.jstr "hi")]])).map
               (fun g => Output.wsSend 0 g) ++ [Output.cbCall freshBr.cb connectedNotif]) ∧
      alookup s2.heap 0 = some { freshBr with messageQueue := [], authenticated := true }) :=
  ⟨⟨rfl, rfl, rfl, rfl, rfl, rfl⟩,
   c2_queue_drained_fifo (stateAfter [MEvent.create "c1" 7, MEvent.wsOpen 0]) "c1" 0 freshBr 0
     [JVal.jobj [("type", JVal.jstr "message"), ("text", JVal.jstr "hi")]]
     rfl rfl rfl rfl rfl rfl⟩

/-- C4 counterexample: on the concrete scenario (history with limit 10 queued
before authentication, then handshake success) the service emits the
sessions.history request first and the connected notification second; the
claimed order (connected before the request) is false. -/
theorem c4_counterexample :
    (run initEx c4Events).map (fun p => p.2) =
      some [Output.wsSend 0 (JVal.jobj [("type", JVal.jstr "req"), ("id", JVal.jstr "uuid-0"),
              ("method", JVal.jstr "sessions.history"),
              ("params", JVal.jobj [("sessionKey", JVal.jstr "main"),
                ("limit", JVal.jnum 10)])]),
            Output.cbCall 1 connectedNotif] := rfl

/-- C4 (amended): if a history message with limit 10 is submitted via
sendMessage before authentication and then a successful handshake response
arrives, exactly one outbound req with method sessions.history and
params.limit equal to 10 is produced, and the client callback receives the
connected notification after that request is sent (the queue is drained
before the notification). -/
theorem c4_history_flush_order (s : State) (cid : String) (obj : Nat) (br : BridgeRecord)
    (tid : Nat) (hb : alookup s.bridges cid = some obj) (hh : alookup s.heap obj = some br)
    (hauth : br.authenticated = false) (hq : br.messageQueue = [])
    (hws : br.ws = some tid) (hopen : transportOpen s tid = true)
    (hdiv : s.diverged = false) :
    ∃ s1 s2,
      sendMessage s cid historyMsg = (s1, []) ∧
      handleGatewayMessage s1 cid helloOkFrame =
        (s2, [Output.wsSend tid (JVal.jobj [("type", JVal.jstr "req"),
                ("id", JVal.jstr (uuidStr s.uuidCtr)),
                ("method", JVal.jstr "sessions.history"),
                ("params", JVal.jobj [("sessionKey", JVal.jstr (sessionKeyOf br)),
                  ("limit", JVal.jnum 10)])]),
              Output.cbCall br.cb connectedNotif]) := by
  set s1 := modifyObj s obj (fun b => { b with messageQueue := b.messageQueue ++ [historyMsg] })
    with hs1def
  have hsend : sendMessage s cid historyMsg = (s1, []) := by
    rw [sendMessage_not_auth s cid obj br historyMsg hb hh hauth, hs1def]
  have hb1 : alookup s1.bridges cid = some obj := by
    rw [hs1def, modifyObj_bridges]; exact hb
  have hh1 : alookup s1.heap obj = some { br with messageQueue := [historyMsg] } := by
    have h0 : alookup s1.heap obj
        = some { br with messageQueue := br.messageQueue ++ [historyMsg] } := by
      rw [hs1def]; exact modifyObj_heap_self s obj _ br hh
    rw [h0, hq]
    rfl
  have hopen1 : transportOpen s1 tid = true := by
    rw [hs1def, transportOpen_modifyObj]; exact hopen
  have hdiv1 : s1.diverged = false := by
    rw [hs1def, modifyObj_diverged]; exact hdiv
  have hu1 : s1.uuidCtr = s.uuidCtr := by rw [hs1def]; exact modifyObj_uuidCtr s obj _
  obtain ⟨s2, hsucc, hbrg2, hhp2, htr2, hdv2⟩ :=
    handleConnectSuccess_live s1 cid obj { br with messageQueue := [historyMsg] } tid
      (JVal.jobj [("type", JVal.jstr "hello-ok")]) hb1 hh1 hws hopen1 hdiv1
  refine ⟨s1, s2, hsend, ?_⟩
  rw [handleGatewayMessage_helloOk s1 cid obj _ hb1 hh1, hsucc, hu1]
  rfl

/-- C4 witness: the amended order theorem applied at the concrete fresh
session. -/
theorem c4_history_flush_order_witness :
    (alookup (stateAfter [MEvent.create "c1" 7, MEvent.wsOpen 0]).bridges "c1" = some 0 ∧
     alookup (stateAfter [MEvent.create "c1" 7, MEvent.wsOpen 0]).heap 0 = some freshBr ∧
     freshBr.authenticated = false ∧ freshBr.messageQueue = [] ∧ freshBr.ws = some 0 ∧
     transportOpen (stateAfter [MEvent.create "c1" 7, MEvent.wsOpen 0]) 0 = true ∧
     (stateAfter [MEvent.create "c1" 7, MEvent.wsOpen 0]).diverged = false) ∧
    (∃ s1 s2,
      sendMessage (stateAfter [MEvent.create "c1" 7, MEvent.wsOpen 0]) "c1" historyMsg
        = (s1, []) ∧
      handleGatewayMessage s1 "c1" helloOkFrame =
        (s2, [Output.wsSend 0 (JVal.jobj [("type", JVal.jstr "req"),
                ("id", JVal.jstr (uuidStr (stateAfter
                  [MEvent.create "c1" 7, MEvent.wsOpen 0]).uuidCtr)),
                ("method", JVal.jstr "sessions.history"),
                ("params", JVal.jobj [("sessionKey", JVal.jstr (sessionKeyOf freshBr)),
                  ("limit", JVal.jnum 10)])]),
              Output.cbCall freshBr.cb connectedNotif])) :=
  ⟨⟨rfl, rfl, rfl, rfl, rfl, rfl, rfl⟩,
   c4_history_flush_order (stateAfter [MEvent.create "c1" 7, MEvent.wsOpen 0]) "c1" 0 freshBr 0
     rfl rfl rfl rfl rfl rfl rfl⟩

/-- The router sends a connect.challenge event into handleConnectChallenge. -/
theorem handleGatewayMessage_challenge (s : State) (cid : String) (obj : Nat)
    (br : BridgeRecord) (nonce : String)
    (hb : alookup s.bridges cid = some obj) (hh : alookup s.heap obj = some br) :
    handleGatewayMessage s cid (challengeFrame nonce) =
      handleConnectChallenge s cid
        (JVal.jobj [("nonce", JVal.jstr nonce), ("ts", JVal.jnum 1000)]) := by
  unfold handleGatewayMessage
  simp only [hb, hh]
  rfl

/-- Lemma: sendRaw on a present bridge with an open transport emits exactly
the given frame. -/
theorem sendRaw_live (s : State) (cid : String) (obj : Nat) (br : BridgeRecord)
    (tid : Nat) (m : JVal) (hb : alookup s.bridges cid = some obj)
    (hh : alookup s.heap obj = some br) (hws : br.ws = some tid)
    (hopen : transportOpen s tid = true) :
    sendRaw s cid m = (s, [Output.wsSend tid m]) := by
  unfold sendRaw
  simp only [hb, hh, hws, hopen, if_true]

/-- Lemma: the join performed by the source equals the canonical signing
string of the specification, with the token truthiness defaulting collapsed. -/
theorem jsJoin_signing (di : DeviceIdentity) (now : Nat) (token nonce : String) :
    jsJoin "|" ["v2", di.deviceId, "cli", "cli", "operator",
      jsJoin "," ["operator.read", "operator.write"], toString now,
      (if token = "" then "" else token), nonce]
    = canonicalSigningString di now token nonce := by
  have htok : (if token = "" then "" else token) = token := by
    split
    · simp_all
    · rfl
  unfold jsJoin canonicalSigningString
  simp only [List.foldl, htok, String.append_assoc]

/-- C3: on a connect.challenge event carrying a nonce, the connection
produces exactly one outbound req with method connect, whose
device.signature is non-empty and is the base64url-encoded signature over
the canonical pipe-delimited string (protocol tag, device id, literal client
id, literal client mode, role literal, comma-joined scopes, stringified
signing timestamp in milliseconds, configured gateway token, challenge
nonce); device.id equals the process device identifier and device.nonce
echoes the challenge nonce. -/
theorem c3_challenge_signed_connect (s : State) (cid : String) (obj : Nat)
    (br : BridgeRecord) (tid : Nat) (di : DeviceIdentity) (nonce : String)
    (hb : alookup s.bridges cid = some obj) (hh : alookup s.heap obj = some br)
    (hws : br.ws = some tid) (hdi : s.deviceIdentity = some di)
    (hopen : transportOpen s tid = true)
    (hsig : s.env.signBytes (canonicalSigningString di s.now s.env.gatewayToken nonce) ≠ []) :
    ∃ r, handleGatewayMessage s cid (challengeFrame nonce) =
        ({ s with uuidCtr := s.uuidCtr + 1 }, [Output.wsSend tid r]) ∧
      jfield r "type" = JVal.jstr "req" ∧
      jfield r "method" = JVal.jstr "connect" ∧
      jfield (jfield (jfield r "params") "device") "signature" =
        JVal.jstr (b64url (s.env.signBytes
          (canonicalSigningString di s.now s.env.gatewayToken nonce))) ∧
      b64url (s.env.signBytes (canonicalSigningString di s.now s.env.gatewayToken nonce)) ≠ "" ∧
      jfield (jfield (jfield r "params") "device") "id" = JVal.jstr di.deviceId ∧
      jfield (jfield (jfield r "params") "device") "nonce" = JVal.jstr nonce := by
  rw [handleGatewayMessage_challenge s cid obj br nonce hb hh]
  unfold handleConnectChallenge
  simp only [hb, hh, hws, hdi]
  rw [← hdi]
  rw [sendRaw_live { s with uuidCtr := s.uuidCtr + 1 } cid obj br tid _ hb hh hws hopen]
  refine ⟨_, rfl, rfl, rfl, ?_, b64url_ne_empty _ hsig, rfl, rfl⟩
  show JVal.jstr (signMessage s (jsJoin "|" _)) = _
  unfold signMessage
  rw [show jsToStr (jfield (JVal.jobj [("nonce", JVal.jstr nonce), ("ts", JVal.jnum 1000)])
        "nonce") = nonce from rfl]
  rw [jsJoin_signing di s.now s.env.gatewayToken nonce]

/-- C3 witness: challenge delivered on the open transport of a concrete fresh
session, with the example 64-byte signer. -/
theorem c3_challenge_signed_connect_witness :
    (alookup (stateAfter [MEvent.create "c1" 7, MEvent.wsOpen 0]).bridges "c1" = some 0 ∧
     alookup (stateAfter [MEvent.create "c1" 7, MEvent.wsOpen 0]).heap 0 = some freshBr ∧
     freshBr.ws = some 0 ∧
     (stateAfter [MEvent.create "c1" 7, MEvent.wsOpen 0]).deviceIdentity = some exIdent ∧
     transportOpen (stateAfter [MEvent.create "c1" 7, MEvent.wsOpen 0]) 0 = true ∧
     (stateAfter [MEvent.create "c1" 7, MEvent.wsOpen 0]).env.signBytes
       (canonicalSigningString exIdent (stateAfter [MEvent.create "c1" 7, MEvent.wsOpen 0]).now
         (stateAfter [MEvent.create "c1" 7, MEvent.wsOpen 0]).env.gatewayToken "abc") ≠ []) ∧
    (∃ r, handleGatewayMessage (stateAfter [MEvent.create "c1" 7, MEvent.wsOpen 0]) "c1"
          (challengeFrame "abc") =
        ({ stateAfter [MEvent.create "c1" 7, MEvent.wsOpen 0] with
            uuidCtr := (stateAfter [MEvent.create "c1" 7, MEvent.wsOpen 0]).uuidCtr + 1 },
         [Output.wsSend 0 r]) ∧
      jfield r "type" = JVal.jstr "req" ∧
      jfield r "method" = JVal.jstr "connect" ∧
      jfield (jfield (jfield r "params") "device") "signature" =
        JVal.jstr (b64url ((stateAfter [MEvent.create "c1" 7, MEvent.wsOpen 0]).env.signBytes
          (canonicalSigningString exIdent
            (stateAfter [MEvent.create "c1" 7, MEvent.wsOpen 0]).now
            (stateAfter [MEvent.create "c1" 7, MEvent.wsOpen 0]).env.gatewayToken "abc"))) ∧
      b64url ((stateAfter [MEvent.create "c1" 7, MEvent.wsOpen 0]).env.signBytes
        (canonicalSigningString exIdent (stateAfter [MEvent.create "c1" 7, MEvent.wsOpen 0]).now
          (stateAfter [MEvent.create "c1" 7, MEvent.wsOpen 0]).env.gatewayToken "abc")) ≠ "" ∧
      jfield (jfield (jfield r "params") "device") "id" = JVal.jstr exIdent.deviceId ∧
      jfield (jfield (jfield r "params") "device") "nonce" = JVal.jstr "abc") :=
  ⟨⟨rfl, rfl, rfl, rfl, rfl, by decide⟩,
   c3_challenge_signed_connect (stateAfter [MEvent.create "c1" 7, MEvent.wsOpen 0]) "c1" 0
     freshBr 0 exIdent "abc" rfl rfl rfl rfl rfl (by decide)⟩

/-! Characterisation of the strict string equality test. -/

theorem isStr_eq_true_iff (v : JVal) (t : String) : isStr v t = true ↔ v = JVal.jstr t := by
  cases v <;> simp [isStr]

theorem isStr_eq_false_of_ne (v : JVal) (t : String) (h : v ≠ JVal.jstr t) :
    isStr v t = false := by
  cases hi : isStr v t
  · rfl
  · exact absurd ((isStr_eq_true_iff v t).mp hi) h

/-- C10: a history message translated on an authenticated bridge with a live
transport yields a sessions.history request whose params.limit is the
supplied limit when truthy and 50 when absent or falsy; in particular limit 0
yields 50, not 0. -/
theorem c10_history_limit_default (s : State) (cid : String) (obj : Nat) (br : BridgeRecord)
    (tid : Nat) (m : JVal) (hb : alookup s.bridges cid = some obj)
    (hh : alookup s.heap obj = some br) (hauth : br.authenticated = true)
    (hws : br.ws = some tid) (hopen : transportOpen s tid = true)
    (hty : jfield m "type" = JVal.jstr "history") :
    ∃ g, sendMessage s cid m = ({ s with uuidCtr := s.uuidCtr + 1 }, [Output.wsSend tid g]) ∧
      jfield g "method" = JVal.jstr "sessions.history" ∧
      (truthy (jfield m "limit") = true →
        jfield (jfield g "params") "limit" = jfield m "limit") ∧
      (truthy (jfield m "limit") = false →
        jfield (jfield g "params") "limit" = JVal.jnum 50) ∧
      (jfield m "limit" = JVal.jnum 0 →
        jfield (jfield g "params") "limit" = JVal.jnum 50) := by
  have hc1 : isStr (JVal.jstr "history") "message" = false := by decide
  have hc2 : isStr (JVal.jstr "history") "history" = true := by decide
  have hconv : convertPure (sessionKeyOf br) s.uuidCtr m =
      (JVal.jobj [("type", JVal.jstr "req"), ("id", JVal.jstr (uuidStr s.uuidCtr)),
        ("method", JVal.jstr "sessions.history"),
        ("params", JVal.jobj [("sessionKey", JVal.jstr (sessionKeyOf br)),
          ("limit", if truthy (jfield m "limit") then jfield m "limit"
                    else JVal.jnum 50)])],
       s.uuidCtr + 1) := by
    unfold convertPure
    rw [hty, hc1, hc2]
    simp
  rw [sendMessage_live s cid obj br m tid hb hh hauth hws hopen, hconv]
  refine ⟨_, rfl, rfl, ?_, ?_, ?_⟩
  · intro h
    show (if truthy (jfield m "limit") then jfield m "limit" else JVal.jnum 50) = _
    rw [h]
    simp
  · intro h
    show (if truthy (jfield m "limit") then jfield m "limit" else JVal.jnum 50) = _
    rw [h]
    simp
  · intro h
    show (if truthy (jfield m "limit") then jfield m "limit" else JVal.jnum 50) = _
    rw [h]
    simp [truthy]

/-- C10 witness: the concrete message history with limit 0 on an
authenticated session yields params.limit 50. -/
theorem c10_history_limit_default_witness :
    (alookup (stateAfter [MEvent.create "c1" 7, MEvent.wsOpen 0,
        MEvent.wsMsg 0 helloOkFrame]).bridges "c1" = some 0 ∧
     alookup (stateAfter [MEvent.create "c1" 7, MEvent.wsOpen 0,
        MEvent.wsMsg 0 helloOkFrame]).heap 0 = some authedBr ∧
     authedBr.authenticated = true ∧ authedBr.ws = some 0 ∧
     transportOpen (stateAfter [MEvent.create "c1" 7, MEvent.wsOpen 0,
        MEvent.wsMsg 0 helloOkFrame]) 0 = true ∧
     jfield (JVal.jobj [("type", JVal.jstr "history"), ("limit", JVal.jnum 0)]) "type"
       = JVal.jstr "history") ∧
    (∃ g, sendMessage (stateAfter [MEvent.create "c1" 7, MEvent.wsOpen 0,
            MEvent.wsMsg 0 helloOkFrame]) "c1"
          (JVal.jobj [("type", JVal.jstr "history"), ("limit", JVal.jnum 0)]) =
        ({ stateAfter [MEvent.create "c1" 7, MEvent.wsOpen 0, MEvent.wsMsg 0 helloOkFrame] with
            uuidCtr := (stateAfter [MEvent.create "c1" 7, MEvent.wsOpen 0,
              MEvent.wsMsg 0 helloOkFrame]).uuidCtr + 1 },
         [Output.wsSend 0 g]) ∧
      jfield g "method" = JVal.jstr "sessions.history" ∧
      (truthy (jfield (JVal.jobj [("type", JVal.jstr "history"), ("limit", JVal.jnum 0)])
          "limit") = true →
        jfield (jfield g "params") "limit" =
          jfield (JVal.jobj [("type", JVal.jstr "history"), ("limit", JVal.jnum 0)]) "limit") ∧
      (truthy (jfield (JVal.jobj [("type", JVal.jstr "history"), ("limit", JVal.jnum 0)])
          "limit") = false →
        jfield (jfield g "params") "limit" = JVal.jnum 50) ∧
      (jfield (JVal.jobj [("type", JVal.jstr "history"), ("limit", JVal.jnum 0)]) "limit"
          = JVal.jnum 0 →
        jfield (jfield g "params") "limit" = JVal.jnum 50)) :=
  ⟨⟨rfl, rfl, rfl, rfl, rfl, rfl⟩,
   c10_history_limit_default
     (stateAfter [MEvent.create "c1" 7, MEvent.wsOpen 0, MEvent.wsMsg 0 helloOkFrame]) "c1" 0
     authedBr 0 (JVal.jobj [("type", JVal.jstr "history"), ("limit", JVal.jnum 0)])
     rfl rfl rfl rfl rfl rfl⟩

/-- C7: every event frame whose name is in the ignore set, or whose name is
none of connect.challenge, agent, chat, never invokes the client callback;
and every res frame with ok false invokes the callback exactly once with the
error notification carrying the frame error. -/
theorem c7_router_ignores_and_errors :
    (∀ (s : State) (cid : String) (m : JVal) (n : String),
      jfield m "type" = JVal.jstr "event" → jfield m "event" = JVal.jstr n →
      (n ∈ ignoredEvents ∨ (n ≠ "connect.challenge" ∧ n ≠ "agent" ∧ n ≠ "chat")) →
      ∀ c v, Output.cbCall c v ∉ (handleGatewayMessage s cid m).2) ∧
    (∀ (s : State) (cid : String) (obj : Nat) (br : BridgeRecord) (m : JVal),
      alookup s.bridges cid = some obj → alookup s.heap obj = some br →
      jfield m "type" = JVal.jstr "res" → jfield m "ok" = JVal.jbool false →
      (handleGatewayMessage s cid m).2 =
        [Output.cbCall br.cb (JVal.jobj [("type", JVal.jstr "error"),
          ("error", jfield m "error")])]) := by
  constructor
  · intro s cid m n hty hev hcase c v
    have hne : n ≠ "connect.challenge" ∧ n ≠ "agent" ∧ n ≠ "chat" := by
      rcases hcase with hmem | hne
      · unfold ignoredEvents at hmem
        simp only [List.mem_cons, List.mem_singleton, List.not_mem_nil, or_false] at hmem
        rcases hmem with rfl | rfl | rfl | rfl | rfl <;> refine ⟨?_, ?_, ?_⟩ <;> decide
      · exact hne
    obtain ⟨h1, h2, h3⟩ := hne
    have f1 : isStr (JVal.jstr n) "connect.challenge" = false :=
      isStr_eq_false_of_ne _ _ (by simp [h1])
    have f2 : isStr (JVal.jstr n) "agent" = false :=
      isStr_eq_false_of_ne _ _ (by simp [h2])
    have f3 : isStr (JVal.jstr n) "chat" = false :=
      isStr_eq_false_of_ne _ _ (by simp [h3])
    rcases Option.eq_none_or_eq_some (alookup s.bridges cid) with hbz | ⟨obj, hbz⟩
    · unfold handleGatewayMessage
      simp [hbz]
    rcases Option.eq_none_or_eq_some (alookup s.heap obj) with hhz | ⟨br, hhz⟩
    · unfold handleGatewayMessage
      simp [hbz, hhz]
    unfold handleGatewayMessage
    simp only [hbz, hhz]
    rw [hty, hev]
    simp only [f1, f2, f3]
    have e1 : isStr (JVal.jstr "event") "event" = true := by decide
    have e2 : isStr (JVal.jstr "event") "res" = false := by decide
    simp only [e1, e2, Bool.true_and, Bool.false_and, Bool.and_false,
      Bool.false_eq_true, if_false]
    cases hI : isIgnoredEvent (JVal.jstr n) <;> simp [hI]
  · intro s cid obj br m hb hh hty hok
    unfold handleGatewayMessage
    simp only [hb, hh]
    rw [hty, hok]
    have e1 : isStr (JVal.jstr "res") "event" = false := by decide
    have e2 : isStr (JVal.jstr "res") "res" = true := by decide
    have e3 : truthy (JVal.jbool false) = false := by decide
    simp only [e1, e2, e3, Bool.true_and, Bool.false_and, Bool.and_false, Bool.and_true,
      Bool.not_false, Bool.false_eq_true, if_false, if_true]

/-- C7 witness: a concrete tick event invokes no callback; a concrete failed
response invokes the callback exactly once with the error notification. -/
theorem c7_router_ignores_and_errors_witness :
    (jfield (JVal.jobj [("type", JVal.jstr "event"), ("event", JVal.jstr "tick")]) "type"
       = JVal.jstr "event" ∧
     jfield (JVal.jobj [("type", JVal.jstr "event"), ("event", JVal.jstr "tick")]) "event"
       = JVal.jstr "tick" ∧
     "tick" ∈ ignoredEvents ∧
     alookup (stateAfter [MEvent.create "c1" 7, MEvent.wsOpen 0]).bridges "c1" = some 0 ∧
     alookup (stateAfter [MEvent.create "c1" 7, MEvent.wsOpen 0]).heap 0 = some freshBr ∧
     jfield errFrame "type" = JVal.jstr "res" ∧ jfield errFrame "ok" = JVal.jbool false) ∧
    (∀ c v, Output.cbCall c v ∉
      (handleGatewayMessage (stateAfter [MEvent.create "c1" 7, MEvent.wsOpen 0]) "c1"
        (JVal.jobj [("type", JVal.jstr "event"), ("event", JVal.jstr "tick")])).2) ∧
    ((handleGatewayMessage (stateAfter [MEvent.create "c1" 7, MEvent.wsOpen 0]) "c1"
        errFrame).2 =
      [Output.cbCall freshBr.cb (JVal.jobj [("type", JVal.jstr "error"),
        ("error", jfield errFrame "error")])]) :=
  ⟨⟨rfl, rfl, by decide, rfl, rfl, rfl, rfl⟩,
   fun c v => c7_router_ignores_and_errors.1
     (stateAfter [MEvent.create "c1" 7, MEvent.wsOpen 0]) "c1"
     (JVal.jobj [("type", JVal.jstr "event"), ("event", JVal.jstr "tick")]) "tick"
     rfl rfl (Or.inl (by decide)) c v,
   c7_router_ignores_and_errors.2
     (stateAfter [MEvent.create "c1" 7, MEvent.wsOpen 0]) "c1" 0 freshBr errFrame
     rfl rfl rfl rfl⟩

/-- C8: the router dispatches every agent event to handleAgentEvent, which
forwards exactly one streaming notification preserving runId when the
payload carries a (truthy) text delta, exactly one completion notification
when the status is completed or done, and nothing for any other payload
shape. -/
theorem c8_agent_event_forwarding :
    (∀ (s : State) (cid : String) (m : JVal),
      jfield m "type" = JVal.jstr "event" → jfield m "event" = JVal.jstr "agent" →
      handleGatewayMessage s cid m = handleAgentEvent s cid (jfield m "payload")) ∧
    (∀ (s : State) (cid : String) (obj : Nat) (br : BridgeRecord) (payload : JVal),
      alookup s.bridges cid = some obj → alookup s.heap obj = some br →
      (truthy (jfield (jfield payload "delta") "text") = true →
        handleAgentEvent s cid payload = (s, [Output.cbCall br.cb (JVal.jobj
          [("type", JVal.jstr "response"),
           ("content", jfield (jfield payload "delta") "text"),
           ("streaming", JVal.jbool true), ("runId", jfield payload "runId")])])) ∧
      (truthy (jfield (jfield payload "delta") "text") = false →
        (jfield payload "status" = JVal.jstr "completed" ∨
         jfield payload "status" = JVal.jstr "done") →
        handleAgentEvent s cid payload = (s, [Output.cbCall br.cb (JVal.jobj
          [("type", JVal.jstr "response_complete"),
           ("runId", jfield payload "runId")])])) ∧
      (truthy (jfield (jfield payload "delta") "text") = false →
        jfield payload "status" ≠ JVal.jstr "completed" →
        jfield payload "status" ≠ JVal.jstr "done" →
        handleAgentEvent s cid payload = (s, []))) := by
  constructor
  · intro s cid m hty hev
    rcases Option.eq_none_or_eq_some (alookup s.bridges cid) with hbz | ⟨obj, hbz⟩
    · unfold handleGatewayMessage handleAgentEvent
      simp [hbz]
    rcases Option.eq_none_or_eq_some (alookup s.heap obj) with hhz | ⟨br, hhz⟩
    · unfold handleGatewayMessage handleAgentEvent
      simp [hbz, hhz]
    unfold handleGatewayMessage
    simp only [hbz, hhz]
    rw [hty, hev]
    have e1 : isStr (JVal.jstr "event") "event" = true := by decide
    have e2 : isStr (JVal.jstr "event") "res" = false := by decide
    have e3 : isStr (JVal.jstr "agent") "connect.challenge" = false := by decide
    have e4 : isStr (JVal.jstr "agent") "agent" = true := by decide
    simp only [e1, e2, e3, e4, Bool.true_and, Bool.false_and, Bool.and_false,
      Bool.and_true, Bool.false_eq_true, if_false, if_true]
  · intro s cid obj br payload hb hh
    refine ⟨?_, ?_, ?_⟩
    · intro hd
      unfold handleAgentEvent
      simp only [hb, hh, hd, if_true]
    · intro hd hstat
      unfold handleAgentEvent
      simp only [hb, hh, hd, Bool.false_eq_true, if_false]
      rcases hstat with hs1 | hs1 <;> rw [hs1]
      · have : isStr (JVal.jstr "completed") "completed" = true := by decide
        simp only [this, Bool.true_or, if_true]
      · have h1 : isStr (JVal.jstr "done") "completed" = false := by decide
        have h2 : isStr (JVal.jstr "done") "done" = true := by decide
        simp only [h1, h2, Bool.false_or, if_true]
    · intro hd hns1 hns2
      unfold handleAgentEvent
      simp only [hb, hh, hd, Bool.false_eq_true, if_false,
        isStr_eq_false_of_ne _ _ hns1, isStr_eq_false_of_ne _ _ hns2, Bool.or_false]

/-- C8 witness: a concrete delta payload yields one streaming notification, a
concrete done payload yields one completion, and a payload with neither is
dropped, on a concrete fresh session. -/
theorem c8_agent_event_forwarding_witness :
    (jfield (JVal.jobj [("type", JVal.jstr "event"), ("event", JVal.jstr "agent"),
        ("payload", JVal.jobj [("delta", JVal.jobj [("text", JVal.jstr "hi")]),
          ("runId", JVal.jstr "r1")])]) "type" = JVal.jstr "event" ∧
     alookup (stateAfter [MEvent.create "c1" 7, MEvent.wsOpen 0]).bridges "c1" = some 0 ∧
     alookup (stateAfter [MEvent.create "c1" 7, MEvent.wsOpen 0]).heap 0 = some freshBr) ∧
    (handleGatewayMessage (stateAfter [MEvent.create "c1" 7, MEvent.wsOpen 0]) "c1"
        (JVal.jobj [("type", JVal.jstr "event"), ("event", JVal.jstr "agent"),
          ("payload", JVal.jobj [("delta", JVal.jobj [("text", JVal.jstr "hi")]),
            ("runId", JVal.jstr "r1")])]) =
      handleAgentEvent (stateAfter [MEvent.create "c1" 7, MEvent.wsOpen 0]) "c1"
        (jfield (JVal.jobj [("type", JVal.jstr "event"), ("event", JVal.jstr "agent"),
          ("payload", JVal.jobj [("delta", JVal.jobj [("text", JVal.jstr "hi")]),
            ("runId", JVal.jstr "r1")])]) "payload")) ∧
    (handleAgentEvent (stateAfter [MEvent.create "c1" 7, MEvent.wsOpen 0]) "c1"
        (JVal.jobj [("delta", JVal.jobj [("text", JVal.jstr "hi")]),
          ("runId", JVal.jstr "r1")]) =
      (stateAfter [MEvent.create "c1" 7, MEvent.wsOpen 0],
       [Output.cbCall freshBr.cb (JVal.jobj
         [("type", JVal.jstr "response"),
          ("content", jfield (jfield (JVal.jobj [("delta", JVal.jobj [("text", JVal.jstr "hi")]),
            ("runId", JVal.jstr "r1")]) "delta") "text"),
          ("streaming", JVal.jbool true),
          ("runId", jfield (JVal.jobj [("delta", JVal.jobj [("text", JVal.jstr "hi")]),
            ("runId", JVal.jstr "r1")]) "runId")])])) ∧
    (handleAgentEvent (stateAfter [MEvent.create "c1" 7, MEvent.wsOpen 0]) "c1"
        (JVal.jobj [("status", JVal.jstr "done"), ("runId", JVal.jstr "r1")]) =
      (stateAfter [MEvent.create "c1" 7, MEvent.wsOpen 0],
       [Output.cbCall freshBr.cb (JVal.jobj
         [("type", JVal.jstr "response_complete"),
          ("runId", jfield (JVal.jobj [("status", JVal.jstr "done"),
            ("runId", JVal.jstr "r1")]) "runId")])])) ∧
    (handleAgentEvent (stateAfter [MEvent.create "c1" 7, MEvent.wsOpen 0]) "c1"
        (JVal.jobj [("foo", JVal.jnum 1)]) =
      (stateAfter [MEvent.create "c1" 7, MEvent.wsOpen 0], [])) :=
  ⟨⟨rfl, rfl, rfl⟩,
   c8_agent_event_forwarding.1 (stateAfter [MEvent.create "c1" 7, MEvent.wsOpen 0]) "c1"
     (JVal.jobj [("type", JVal.jstr "event"), ("event", JVal.jstr "agent"),
       ("payload", JVal.jobj [("delta", JVal.jobj [("text", JVal.jstr "hi")]),
         ("runId", JVal.jstr "r1")])]) rfl rfl,
   (c8_agent_event_forwarding.2 (stateAfter [MEvent.create "c1" 7, MEvent.wsOpen 0]) "c1" 0
     freshBr (JVal.jobj [("delta", JVal.jobj [("text", JVal.jstr "hi")]),
       ("runId", JVal.jstr "r1")]) rfl rfl).1 rfl,
   (c8_agent_event_forwarding.2 (stateAfter [MEvent.create "c1" 7, MEvent.wsOpen 0]) "c1" 0
     freshBr (JVal.jobj [("status", JVal.jstr "done"), ("runId", JVal.jstr "r1")])
     rfl rfl).2.1 rfl (Or.inr rfl),
   (c8_agent_event_forwarding.2 (stateAfter [MEvent.create "c1" 7, MEvent.wsOpen 0]) "c1" 0
     freshBr (JVal.jobj [("foo", JVal.jnum 1)]) rfl rfl).2.2 rfl
     (fun h => JVal.noConfusion h) (fun h => JVal.noConfusion h)⟩

/-- C1: evaluation of the code at the failing input.  After closeBridge of c1
and an immediate createBridge of c1 with a new callback 2, a failure response
delivered by the superseded transport 0 (still draining before its close
event) is routed by clientId into the new session: the new callback 2 is
invoked with the error notification.  The code has no transport generation
check, so the stale frame is not ignored. -/
theorem c1_stale_frame_reaches_new_session :
    (run initEx c1Events).map (fun p => p.2) =
      some [Output.wsClose 0,
            Output.cbCall 2 (JVal.jobj [("type", JVal.jstr "error"),
              ("error", JVal.jstr "boom")])] := rfl

/-- C9: evaluation of the code at the failing input.  A stale hello-ok
response delivered by the superseded transport 0 marks the replacement
session authenticated while its own transport 1 has not even opened: the
final state has the mapped bridge of c1 with authenticated true and ws
transport 1, yet transport 1 is not open, and no handshake ever completed on
transport 1. -/
theorem c9_stale_helloOk_breaks_invariant :
    (run initEx c9Events).map (fun p => (bridgeView p.1 "c1", transportOpen p.1 1)) =
      some (some (true, some 1), false) := rfl

/-! Plumbing for the quiescence development. -/

theorem modifyTransport_bridges (s : State) (tid : Nat) (f : TransportRec → TransportRec) :
    (modifyTransport s tid f).bridges = s.bridges := by
  unfold modifyTransport; cases alookup s.transports tid <;> rfl

theorem modifyTransport_heap (s : State) (tid : Nat) (f : TransportRec → TransportRec) :
    (modifyTransport s tid f).heap = s.heap := by
  unfold modifyTransport; cases alookup s.transports tid <;> rfl

theorem modifyTransport_timers (s : State) (tid : Nat) (f : TransportRec → TransportRec) :
    (modifyTransport s tid f).timers = s.timers := by
  unfold modifyTransport; cases alookup s.transports tid <;> rfl

theorem modifyTimer_bridges (s : State) (t : Nat) (f : TimerRec → TimerRec) :
    (modifyTimer s t f).bridges = s.bridges := by
  unfold modifyTimer; cases alookup s.timers t <;> rfl

theorem modifyTimer_transports (s : State) (t : Nat) (f : TimerRec → TimerRec) :
    (modifyTimer s t f).transports = s.transports := by
  unfold modifyTimer; cases alookup s.timers t <;> rfl

theorem modifyTimer_heap (s : State) (t : Nat) (f : TimerRec → TimerRec) :
    (modifyTimer s t f).heap = s.heap := by
  unfold modifyTimer; cases alookup s.timers t <;> rfl

theorem modifyTransport_prov (s : State) (tid : Nat) (f : TransportRec → TransportRec)
    (hf : ∀ t, (f t).boundClient = t.boundClient) (x : Nat) (tr2 : TransportRec)
    (h : alookup (modifyTransport s tid f).transports x = some tr2) :
    ∃ tr0, alookup s.transports x = some tr0 ∧ tr0.boundClient = tr2.boundClient := by
  unfold modifyTransport at h
  rcases hl : alookup s.transports tid with _ | tr
  · rw [hl] at h; exact ⟨tr2, h, rfl⟩
  · rw [hl] at h
    rcases alookup_aset_some _ _ _ _ _ h with ⟨rfl, rfl⟩ | h2
    · exact ⟨tr, hl, (hf tr).symm⟩
    · exact ⟨tr2, h2, rfl⟩

theorem connectToGateway_bridges (s : State) (cid : String) :
    (connectToGateway s cid).1.bridges = s.bridges := by
  unfold connectToGateway
  rcases alookup s.bridges cid with _ | obj
  · rfl
  · simp [modifyObj_bridges]

theorem connectToGateway_timers (s : State) (cid : String) :
    (connectToGateway s cid).1.timers = s.timers := by
  unfold connectToGateway
  rcases alookup s.bridges cid with _ | obj
  · rfl
  · simp [modifyObj_timers]

theorem connectToGateway_snd (s : State) (cid : String) :
    (connectToGateway s cid).2 = [] := by
  unfold connectToGateway
  rcases alookup s.bridges cid with _ | obj <;> rfl

theorem connectToGateway_prov (s : State) (cid : String) (x : Nat) (tr2 : TransportRec)
    (h : alookup (connectToGateway s cid).1.transports x = some tr2) :
    (∃ tr0, alookup s.transports x = some tr0 ∧ tr0.boundClient = tr2.boundClient) ∨
      tr2.boundClient = cid := by
  unfold connectToGateway at h
  rcases hl : alookup s.bridges cid with _ | obj
  · rw [hl] at h; exact Or.inl ⟨tr2, h, rfl⟩
  · rw [hl] at h
    rw [modifyObj_transports] at h
    rcases alookup_aset_some _ _ _ _ _ h with ⟨rfl, rfl⟩ | h2
    · exact Or.inr rfl
    · exact Or.inl ⟨tr2, h2, rfl⟩

theorem sendRaw_fst (s : State) (cid : String) (m : JVal) : (sendRaw s cid m).1 = s := by
  unfold sendRaw
  rcases Option.eq_none_or_eq_some (alookup s.bridges cid) with h1 | ⟨obj, h1⟩ <;>
    simp only [h1]
  rcases Option.eq_none_or_eq_some (alookup s.heap obj) with h2 | ⟨br, h2⟩ <;>
    simp only [h2]
  rcases Option.eq_none_or_eq_some br.ws with h3 | ⟨tid, h3⟩ <;> simp only [h3]
  rcases Bool.eq_false_or_eq_true (transportOpen s tid) with h4 | h4 <;> simp [h4]

theorem sendRaw_no_cb (s : State) (cid : String) (m : JVal) (c : Nat) (v : JVal) :
    Output.cbCall c v ∉ (sendRaw s cid m).2 := by
  unfold sendRaw
  rcases Option.eq_none_or_eq_some (alookup s.bridges cid) with h1 | ⟨obj, h1⟩ <;>
    simp only [h1]
  · simp
  rcases Option.eq_none_or_eq_some (alookup s.heap obj) with h2 | ⟨br, h2⟩ <;>
    simp only [h2]
  · simp
  rcases Option.eq_none_or_eq_some br.ws with h3 | ⟨tid, h3⟩ <;> simp only [h3]
  · simp
  rcases Bool.eq_false_or_eq_true (transportOpen s tid) with h4 | h4 <;> simp [h4]

theorem sendMessage_shape (s : State) (cid : String) (m : JVal) :
    (sendMessage s cid m).1 = s ∨
    (∃ ctr, (sendMessage s cid m).1 = { s with uuidCtr := ctr }) ∨
    (∃ obj f, (sendMessage s cid m).1 = modifyObj s obj f) := by
  rcases Option.eq_none_or_eq_some (alookup s.bridges cid) with h1 | ⟨obj, h1⟩
  · exact Or.inl (by unfold sendMessage; simp [h1])
  rcases Option.eq_none_or_eq_some (alookup s.heap obj) with h2 | ⟨br, h2⟩
  · exact Or.inl (by unfold sendMessage; simp [h1, h2])
  rcases Bool.eq_false_or_eq_true br.authenticated with hA | hA
  · rcases Option.eq_none_or_eq_some br.ws with h3 | ⟨tid, h3⟩
    · exact Or.inr (Or.inr ⟨obj, (fun b => { b with messageQueue := b.messageQueue ++ [m] }),
        by unfold sendMessage; simp [h1, h2, hA, h3]⟩)
    rcases Bool.eq_false_or_eq_true (transportOpen s tid) with h4 | h4
    · exact Or.inr (Or.inl ⟨(convertToGatewayFormat s cid m).2,
        by unfold sendMessage; simp [h1, h2, hA, h3, h4]⟩)
    · exact Or.inr (Or.inr ⟨obj, (fun b => { b with messageQueue := b.messageQueue ++ [m] }),
        by unfold sendMessage; simp [h1, h2, hA, h3, h4]⟩)
  · exact Or.inr (Or.inr ⟨obj, (fun b => { b with messageQueue := b.messageQueue ++ [m] }),
      by unfold sendMessage; simp [h1, h2, hA]⟩)

theorem sendMessage_bridges (s : State) (cid : String) (m : JVal) :
    (sendMessage s cid m).1.bridges = s.bridges := by
  rcases sendMessage_shape s cid m with h | ⟨ctr, h⟩ | ⟨obj, f, h⟩ <;> rw [h]
  all_goals first
  | rfl
  | exact modifyObj_bridges _ _ _

theorem sendMessage_transports (s : State) (cid : String) (m : JVal) :
    (sendMessage s cid m).1.transports = s.transports := by
  rcases sendMessage_shape s cid m with h | ⟨ctr, h⟩ | ⟨obj, f, h⟩ <;> rw [h]
  all_goals first
  | rfl
  | exact modifyObj_transports _ _ _

theorem sendMessage_timers (s : State) (cid : String) (m : JVal) :
    (sendMessage s cid m).1.timers = s.timers := by
  rcases sendMessage_shape s cid m with h | ⟨ctr, h⟩ | ⟨obj, f, h⟩ <;> rw [h]
  all_goals first
  | rfl
  | exact modifyObj_timers _ _ _

theorem sendMessage_no_cb (s : State) (cid : String) (m : JVal) (c : Nat) (v : JVal) :
    Output.cbCall c v ∉ (sendMessage s cid m).2 := by
  unfold sendMessage
  rcases Option.eq_none_or_eq_some (alookup s.bridges cid) with h1 | ⟨obj, h1⟩ <;>
    simp only [h1]
  · simp
  rcases Option.eq_none_or_eq_some (alookup s.heap obj) with h2 | ⟨br, h2⟩ <;>
    simp only [h2]
  · simp
  rcases Bool.eq_false_or_eq_true br.authenticated with hA | hA
  · simp only [hA]
    rcases Option.eq_none_or_eq_some br.ws with h3 | ⟨tid, h3⟩ <;> simp only [h3]
    · simp
    rcases Bool.eq_false_or_eq_true (transportOpen s tid) with h4 | h4 <;> simp [h4]
  · simp [hA]

/-! Component preservation for closeBridge and createBridge. -/

theorem closeBridge_bridges_lookup (s : State) (cid x : String) :
    alookup (closeBridge s cid).1.bridges x = if cid = x then none else alookup s.bridges x := by
  unfold closeBridge
  rcases Option.eq_none_or_eq_some (alookup s.bridges cid) with h1 | ⟨obj, h1⟩ <;> simp only [h1]
  · by_cases hx : cid = x
    · subst hx; simp [h1]
    · simp [hx]
  rcases Option.eq_none_or_eq_some (alookup s.heap obj) with h2 | ⟨br, h2⟩ <;> simp only [h2]
  · simp [alookup_adel]
  rcases Option.eq_none_or_eq_some br.reconnectTimeout with h3 | ⟨t, h3⟩ <;> simp only [h3]
  · rcases Option.eq_none_or_eq_some br.ws with h4 | ⟨tid, h4⟩ <;> simp only [h4]
    · simp [alookup_adel]
    · simp [alookup_adel, modifyTransport_bridges]
  · rcases Option.eq_none_or_eq_some br.ws with h4 | ⟨tid, h4⟩ <;> simp only [h4]
    · simp [alookup_adel, modifyTimer_bridges]
    · simp [alookup_adel, modifyTransport_bridges, modifyTimer_bridges]

theorem closeBridge_no_cb (s : State) (cid : String) (c : Nat) (v : JVal) :
    Output.cbCall c v ∉ (closeBridge s cid).2 := by
  unfold closeBridge
  rcases Option.eq_none_or_eq_some (alookup s.bridges cid) with h1 | ⟨obj, h1⟩ <;> simp only [h1]
  · simp
  rcases Option.eq_none_or_eq_some (alookup s.heap obj) with h2 | ⟨br, h2⟩ <;> simp only [h2]
  · simp
  rcases Option.eq_none_or_eq_some br.reconnectTimeout with h3 | ⟨t, h3⟩ <;> simp only [h3] <;>
    rcases Option.eq_none_or_eq_some br.ws with h4 | ⟨tid, h4⟩ <;> simp [h4]

theorem closeBridge_transports_prov (s : State) (cid : String) (x : Nat) (tr2 : TransportRec)
    (h : alookup (closeBridge s cid).1.transports x = some tr2) :
    ∃ tr0, alookup s.transports x = some tr0 ∧ tr0.boundClient = tr2.boundClient := by
  unfold closeBridge at h
  rcases Option.eq_none_or_eq_some (alookup s.bridges cid) with h1 | ⟨obj, h1⟩ <;>
    simp only [h1] at h
  · exact ⟨tr2, h, rfl⟩
  rcases Option.eq_none_or_eq_some (alookup s.heap obj) with h2 | ⟨br, h2⟩ <;>
    simp only [h2] at h
  · exact ⟨tr2, h, rfl⟩
  rcases Option.eq_none_or_eq_some br.reconnectTimeout with h3 | ⟨t, h3⟩ <;> simp only [h3] at h <;>
    rcases Option.eq_none_or_eq_some br.ws with h4 | ⟨tid, h4⟩ <;> simp only [h4] at h
  · exact ⟨tr2, h, rfl⟩
  · exact modifyTransport_prov s tid (fun tr => { tr with closeRequested := true })
      (fun t => rfl) x tr2 h
  · rw [modifyTimer_transports] at h
    exact ⟨tr2, h, rfl⟩
  · rcases modifyTransport_prov (modifyTimer s t fun tm => { tm with cancelled := true }) tid
      (fun tr => { tr with closeRequested := true }) (fun t => rfl) x tr2 h with ⟨tr0, h0, hb0⟩
    rw [modifyTimer_transports] at h0
    exact ⟨tr0, h0, hb0⟩

theorem createBridge_quiescent (s : State) (cid cid2 : String) (cb : Nat)
    (hne : cid2 ≠ cid) (hu : alookup s.bridges cid = none) :
    alookup (createBridge s cid2 cb).1.bridges cid = none ∧
    (∀ c v, Output.cbCall c v ∉ (createBridge s cid2 cb).2) ∧
    (∀ x tr2, alookup (createBridge s cid2 cb).1.transports x = some tr2 →
      tr2.boundClient = cid →
      ∃ tr0, alookup s.transports x = some tr0 ∧ tr0.boundClient = cid) := by
  unfold createBridge
  rcases Bool.eq_false_or_eq_true (alookup s.bridges cid2).isSome with hp | hp <;> simp only [hp]
  · -- replace-on-create: closeBridge runs first
    simp only [if_true]
    refine ⟨?_, ?_, ?_⟩
    · rw [connectToGateway_bridges]
      simp only
      rw [alookup_aset_ne _ _ _ _ hne, closeBridge_bridges_lookup]
      split
      · rfl
      · exact hu
    · intro c v
      rw [connectToGateway_snd]
      simp only [List.append_nil]
      exact closeBridge_no_cb s cid2 c v
    · intro x tr2 h hbc
      rcases connectToGateway_prov _ cid2 x tr2 h with ⟨tr0, h0, hb0⟩ | hcid2
      · simp only at h0
        rcases closeBridge_transports_prov s cid2 x tr0 h0 with ⟨tr1, ht1, hb1⟩
        exact ⟨tr1, ht1, hb1.trans (hb0.trans hbc)⟩
      · exact absurd (hcid2 ▸ hbc : cid2 = cid) hne
  · -- fresh client: no close first
    simp only [Bool.false_eq_true, if_false]
    refine ⟨?_, ?_, ?_⟩
    · rw [connectToGateway_bridges]
      simp only
      rw [alookup_aset_ne _ _ _ _ hne]
      exact hu
    · intro c v
      simp only [List.nil_append]
      rw [connectToGateway_snd]
      simp
    · intro x tr2 h hbc
      rcases connectToGateway_prov _ cid2 x tr2 h with ⟨tr0, h0, hb0⟩ | hcid2
      · exact ⟨tr0, h0, hb0.trans hbc⟩
      · exact absurd (hcid2 ▸ hbc : cid2 = cid) hne

/-! Component preservation for the message handlers. -/

theorem drainLoop_components (n : Nat) : ∀ (s : State) (cid : String),
    (drainLoop n s cid).1.bridges = s.bridges ∧
    (drainLoop n s cid).1.transports = s.transports ∧
    (drainLoop n s cid).1.timers = s.timers ∧
    (∀ c v, Output.cbCall c v ∉ (drainLoop n s cid).2) := by
  induction n with
  | zero =>
    intro s cid
    unfold drainLoop
    rcases Option.eq_none_or_eq_some (alookup s.bridges cid) with h1 | ⟨obj, h1⟩ <;>
      simp only [h1]
    · simp
    rcases Option.eq_none_or_eq_some (alookup s.heap obj) with h2 | ⟨br, h2⟩ <;>
      simp only [h2]
    · simp
    rcases Bool.eq_false_or_eq_true br.messageQueue.isEmpty with hq | hq <;> simp [hq]
  | succ k ih =>
    intro s cid
    unfold drainLoop
    rcases Option.eq_none_or_eq_some (alookup s.bridges cid) with h1 | ⟨obj, h1⟩ <;>
      simp only [h1]
    · simp
    rcases Option.eq_none_or_eq_some (alookup s.heap obj) with h2 | ⟨br, h2⟩ <;>
      simp only [h2]
    · simp
    rcases hq : br.messageQueue with _ | ⟨mm, rest⟩ <;> simp only [hq]
    · simp
    refine ⟨?_, ?_, ?_, ?_⟩
    · rw [(ih _ _).1, sendMessage_bridges, modifyObj_bridges]
    · rw [(ih _ _).2.1, sendMessage_transports, modifyObj_transports]
    · rw [(ih _ _).2.2.1, sendMessage_timers, modifyObj_timers]
    · intro c v
      simp only [List.mem_append, not_or]
      exact ⟨sendMessage_no_cb _ _ _ c v, (ih _ _).2.2.2 c v⟩

theorem handleConnectSuccess_components (s : State) (cid : String) (p : JVal) :
    (handleConnectSuccess s cid p).1.bridges = s.bridges ∧
    (handleConnectSuccess s cid p).1.transports = s.transports ∧
    (handleConnectSuccess s cid p).1.timers = s.timers ∧
    (∀ c v, Output.cbCall c v ∈ (handleConnectSuccess s cid p).2 →
      ∃ obj br, alookup s.bridges cid = some obj ∧ alookup s.heap obj = some br ∧
        c = br.cb) := by
  unfold handleConnectSuccess
  rcases Option.eq_none_or_eq_some (alookup s.bridges cid) with h1 | ⟨obj, h1⟩ <;>
    simp only [h1]
  · simp
  rcases Option.eq_none_or_eq_some (alookup s.heap obj) with h2 | ⟨br, h2⟩ <;>
    simp only [h2]
  · simp
  have hd := drainLoop_components br.messageQueue.length
    (modifyObj s obj fun b => { b with authenticated := true }) cid
  refine ⟨?_, ?_, ?_, ?_⟩
  · split
    · rw [hd.1, modifyObj_bridges]
    · simp only
      rw [hd.1, modifyObj_bridges]
  · split
    · rw [hd.2.1, modifyObj_transports]
    · simp only
      rw [hd.2.1, modifyObj_transports]
  · split
    · rw [hd.2.2.1, modifyObj_timers]
    · simp only
      rw [hd.2.2.1, modifyObj_timers]
  · intro c v hmem
    split at hmem
    · exact absurd hmem (hd.2.2.2 c v)
    · simp only [List.mem_append] at hmem
      rcases hmem with hmem | hmem
      · exact absurd hmem (hd.2.2.2 c v)
      · simp only [List.mem_singleton] at hmem
        cases hmem
        exact ⟨obj, br, rfl, h2, rfl⟩

theorem handleConnectChallenge_shape (s : State) (cid : String) (p : JVal) :
    (handleConnectChallenge s cid p).1 = s ∨
    (handleConnectChallenge s cid p).1 = { s with uuidCtr := s.uuidCtr + 1 } := by
  unfold handleConnectChallenge
  rcases Option.eq_none_or_eq_some (alookup s.bridges cid) with h1 | ⟨obj, h1⟩ <;>
    simp only [h1]
  · simp
  rcases Option.eq_none_or_eq_some (alookup s.heap obj) with h2 | ⟨br, h2⟩ <;>
    simp only [h2]
  · simp
  rcases Option.eq_none_or_eq_some br.ws with h3 | ⟨tid, h3⟩ <;> simp only [h3]
  · simp
  rcases Option.eq_none_or_eq_some s.deviceIdentity with h4 | ⟨di, h4⟩ <;> simp only [h4]
  · simp
  · exact Or.inr (by rw [sendRaw_fst])

theorem handleConnectChallenge_no_cb (s : State) (cid : String) (p : JVal) (c : Nat) (v : JVal) :
    Output.cbCall c v ∉ (handleConnectChallenge s cid p).2 := by
  unfold handleConnectChallenge
  rcases Option.eq_none_or_eq_some (alookup s.bridges cid) with h1 | ⟨obj, h1⟩ <;>
    simp only [h1]
  · simp
  rcases Option.eq_none_or_eq_some (alookup s.heap obj) with h2 | ⟨br, h2⟩ <;>
    simp only [h2]
  · simp
  rcases Option.eq_none_or_eq_some br.ws with h3 | ⟨tid, h3⟩ <;> simp only [h3]
  · simp
  rcases Option.eq_none_or_eq_some s.deviceIdentity with h4 | ⟨di, h4⟩ <;> simp only [h4]
  · simp
  · exact sendRaw_no_cb _ cid _ c v

theorem handleAgentEvent_fst (s : State) (cid : String) (p : JVal) :
    (handleAgentEvent s cid p).1 = s := by
  unfold handleAgentEvent
  rcases Option.eq_none_or_eq_some (alookup s.bridges cid) with h1 | ⟨obj, h1⟩ <;>
    simp only [h1]
  all_goals try rfl
  rcases Option.eq_none_or_eq_some (alookup s.heap obj) with h2 | ⟨br, h2⟩ <;>
    simp only [h2]
  all_goals try rfl
  all_goals split
  all_goals try rfl
  all_goals split
  all_goals rfl

theorem handleAgentEvent_cb (s : State) (cid : String) (p : JVal) (c : Nat) (v : JVal)
    (hmem : Output.cbCall c v ∈ (handleAgentEvent s cid p).2) :
    ∃ obj br, alookup s.bridges cid = some obj ∧ alookup s.heap obj = some br ∧
      c = br.cb := by
  unfold handleAgentEvent at hmem
  rcases Option.eq_none_or_eq_some (alookup s.bridges cid) with h1 | ⟨obj, h1⟩ <;>
    simp only [h1] at hmem
  · simp at hmem
  rcases Option.eq_none_or_eq_some (alookup s.heap obj) with h2 | ⟨br, h2⟩ <;>
    simp only [h2] at hmem
  · simp at hmem
  split at hmem
  · simp only [List.mem_singleton] at hmem
    cases hmem
    exact ⟨obj, br, h1, h2, rfl⟩
  split at hmem
  · simp only [List.mem_singleton] at hmem
    cases hmem
    exact ⟨obj, br, h1, h2, rfl⟩
  · simp at hmem

theorem handleGatewayMessage_components (s : State) (cid : String) (m : JVal) :
    (handleGatewayMessage s cid m).1.bridges = s.bridges ∧
    (handleGatewayMessage s cid m).1.transports = s.transports ∧
    (handleGatewayMessage s cid m).1.timers = s.timers := by
  unfold handleGatewayMessage
  rcases Option.eq_none_or_eq_some (alookup s.bridges cid) with h1 | ⟨obj, h1⟩ <;>
    simp only [h1]
  · simp
  rcases Option.eq_none_or_eq_some (alookup s.heap obj) with h2 | ⟨br, h2⟩ <;>
    simp only [h2]
  · simp
  refine ⟨?_, ?_, ?_⟩
  · split
    · rcases handleConnectChallenge_shape s cid (jfield m "payload") with h | h <;> simp [h]
    split
    · exact (handleConnectSuccess_components s cid (jfield m "payload")).1
    split
    · rfl
    split
    · rw [handleAgentEvent_fst]
    split
    · rfl
    split
    · rfl
    split
    · rfl
    · rfl
  · split
    · rcases handleConnectChallenge_shape s cid (jfield m "payload") with h | h <;> simp [h]
    split
    · exact (handleConnectSuccess_components s cid (jfield m "payload")).2.1
    split
    · rfl
    split
    · rw [handleAgentEvent_fst]
    split
    · rfl
    split
    · rfl
    split
    · rfl
    · rfl
  · split
    · rcases handleConnectChallenge_shape s cid (jfield m "payload") with h | h <;> simp [h]
    split
    · exact (handleConnectSuccess_components s cid (jfield m "payload")).2.2.1
    split
    · rfl
    split
    · rw [handleAgentEvent_fst]
    split
    · rfl
    split
    · rfl
    split
    · rfl
    · rfl

theorem handleGatewayMessage_cb (s : State) (cid : String) (m : JVal) (c : Nat) (v : JVal)
    (hmem : Output.cbCall c v ∈ (handleGatewayMessage s cid m).2) :
    ∃ obj br, alookup s.bridges cid = some obj ∧ alookup s.heap obj = some br ∧
      c = br.cb := by
  unfold handleGatewayMessage at hmem
  rcases Option.eq_none_or_eq_some (alookup s.bridges cid) with h1 | ⟨obj, h1⟩ <;>
    simp only [h1] at hmem
  · simp at hmem
  rcases Option.eq_none_or_eq_some (alookup s.heap obj) with h2 | ⟨br, h2⟩ <;>
    simp only [h2] at hmem
  · simp at hmem
  split at hmem
  · exact absurd hmem (handleConnectChallenge_no_cb s cid _ c v)
  split at hmem
  · exact (handleConnectSuccess_components s cid _).2.2.2 c v hmem
  split at hmem
  · simp only [List.mem_singleton] at hmem
    cases hmem
    exact ⟨obj, br, h1, h2, rfl⟩
  split at hmem
  · exact handleAgentEvent_cb s cid _ c v hmem
  split at hmem
  · simp only [List.mem_singleton] at hmem
    cases hmem
    exact ⟨obj, br, h1, h2, rfl⟩
  split at hmem
  · simp at hmem
  split at hmem
  · simp only [List.mem_singleton] at hmem
    cases hmem
    exact ⟨obj, br, h1, h2, rfl⟩
  · simp at hmem

theorem wsOpenHandler_bridges (s : State) (tid : Nat) (tr : TransportRec) :
    (wsOpenHandler s tid tr).bridges = s.bridges := by
  unfold wsOpenHandler
  rw [modifyTransport_bridges, modifyObj_bridges]

theorem wsOpenHandler_timers (s : State) (tid : Nat) (tr : TransportRec) :
    (wsOpenHandler s tid tr).timers = s.timers := by
  unfold wsOpenHandler
  rw [modifyTransport_timers, modifyObj_timers]

theorem wsOpenHandler_transports_prov (s : State) (tid : Nat) (tr : TransportRec)
    (x : Nat) (tr2 : TransportRec)
    (h : alookup (wsOpenHandler s tid tr).transports x = some tr2) :
    ∃ tr0, alookup s.transports x = some tr0 ∧ tr0.boundClient = tr2.boundClient := by
  unfold wsOpenHandler at h
  rcases modifyTransport_prov _ tid (fun t => { t with openFired := true })
    (fun t => rfl) x tr2 h with ⟨tr0, h0, hb0⟩
  rw [modifyObj_transports] at h0
  exact ⟨tr0, h0, hb0⟩

theorem wsCloseHandler_bridges (s : State) (tid : Nat) (tr : TransportRec) :
    (wsCloseHandler s tid tr).bridges = s.bridges := by
  unfold wsCloseHandler
  rw [modifyTransport_bridges]
  split
  · rw [modifyObj_bridges]
    simp only
    rw [modifyObj_bridges]
  · rw [modifyObj_bridges]

theorem wsCloseHandler_transports_prov (s : State) (tid : Nat) (tr : TransportRec)
    (x : Nat) (tr2 : TransportRec)
    (h : alookup (wsCloseHandler s tid tr).transports x = some tr2) :
    ∃ tr0, alookup s.transports x = some tr0 ∧ tr0.boundClient = tr2.boundClient := by
  unfold wsCloseHandler at h
  rcases modifyTransport_prov _ tid (fun t => { t with closeFired := true })
    (fun t => rfl) x tr2 h with ⟨tr0, h0, hb0⟩
  refine ⟨tr0, ?_, hb0⟩
  split at h0
  · rw [modifyObj_transports] at h0
    dsimp only at h0
    rw [modifyObj_transports] at h0
    exact h0
  · rw [modifyObj_transports] at h0
    exact h0

/-- Lemma: one scheduler step taken while a clientId is not in the bridges
map keeps it unmapped, delivers callbacks only on behalf of bridges mapped
for other clientIds, creates no transport bound to the unmapped clientId,
and fires its timers as no-ops. -/
theorem step_quiescent (s s2 : State) (cid : String) (e : MEvent) (os : List Output)
    (hu : alookup s.bridges cid = none) (he : ∀ cb, e ≠ MEvent.create cid cb)
    (hs : step s e = some (s2, os)) :
    alookup s2.bridges cid = none ∧
    (∀ c v, Output.cbCall c v ∈ os → ∃ cid2 obj br, cid2 ≠ cid ∧
      alookup s.bridges cid2 = some obj ∧ alookup s.heap obj = some br ∧ br.cb = c) ∧
    (∀ x tr2, alookup s2.transports x = some tr2 → tr2.boundClient = cid →
      ∃ tr0, alookup s.transports x = some tr0 ∧ tr0.boundClient = cid) ∧
    (∀ t tm, e = MEvent.timerFire t → alookup s.timers t = some tm →
      tm.client = cid → os = []) := by
  unfold step at hs
  rcases Bool.eq_false_or_eq_true s.diverged with hdv | hdv <;> rw [hdv] at hs
  case inl => simp at hs
  simp only [Bool.false_eq_true, if_false] at hs
  cases e with
  | create cid2 cb =>
    by_cases hcc : cid2 = cid
    · subst hcc; exact absurd rfl (he cb)
    rw [Option.some_inj] at hs
    have h1 : (createBridge s cid2 cb).1 = s2 := congrArg Prod.fst hs
    have h2 : (createBridge s cid2 cb).2 = os := congrArg Prod.snd hs
    subst h1; subst h2
    obtain ⟨q1, q2, q3⟩ := createBridge_quiescent s cid cid2 cb hcc hu
    exact ⟨q1, fun c v hmem => absurd hmem (q2 c v), q3, fun t tm heq => by cases heq⟩
  | send cid2 m =>
    rw [Option.some_inj] at hs
    have h1 : (sendMessage s cid2 m).1 = s2 := congrArg Prod.fst hs
    have h2 : (sendMessage s cid2 m).2 = os := congrArg Prod.snd hs
    subst h1; subst h2
    refine ⟨?_, ?_, ?_, fun t tm heq => by cases heq⟩
    · rw [sendMessage_bridges]; exact hu
    · exact fun c v hmem => absurd hmem (sendMessage_no_cb s cid2 m c v)
    · intro x tr2 h hbc
      rw [sendMessage_transports] at h
      exact ⟨tr2, h, hbc⟩
  | close cid2 =>
    rw [Option.some_inj] at hs
    have h1 : (closeBridge s cid2).1 = s2 := congrArg Prod.fst hs
    have h2 : (closeBridge s cid2).2 = os := congrArg Prod.snd hs
    subst h1; subst h2
    refine ⟨?_, ?_, ?_, fun t tm heq => by cases heq⟩
    · rw [closeBridge_bridges_lookup]
      split
      · rfl
      · exact hu
    · exact fun c v hmem => absurd hmem (closeBridge_no_cb s cid2 c v)
    · intro x tr2 h hbc
      rcases closeBridge_transports_prov s cid2 x tr2 h with ⟨tr0, h0, hb0⟩
      exact ⟨tr0, h0, hb0.trans hbc⟩
  | wsOpen tid =>
    rcases Option.eq_none_or_eq_some (alookup s.transports tid) with htr | ⟨tr, htr⟩ <;>
      simp only [htr] at hs
    · cases hs
    split at hs
    · cases hs
    rw [Option.some_inj, Prod.mk.injEq] at hs
    obtain ⟨rfl, rfl⟩ := hs
    refine ⟨?_, ?_, ?_, fun t tm heq => by cases heq⟩
    · rw [wsOpenHandler_bridges]; exact hu
    · simp
    · intro x tr2 h hbc
      rcases wsOpenHandler_transports_prov s tid tr x tr2 h with ⟨tr0, h0, hb0⟩
      exact ⟨tr0, h0, hb0.trans hbc⟩
  | wsMsg tid frame =>
    rcases Option.eq_none_or_eq_some (alookup s.transports tid) with htr | ⟨tr, htr⟩ <;>
      simp only [htr] at hs
    · cases hs
    split at hs
    case isFalse => cases hs
    rw [Option.some_inj] at hs
    have h1 : (handleGatewayMessage s tr.boundClient frame).1 = s2 := congrArg Prod.fst hs
    have h2 : (handleGatewayMessage s tr.boundClient frame).2 = os := congrArg Prod.snd hs
    subst h1; subst h2
    refine ⟨?_, ?_, ?_, fun t tm heq => by cases heq⟩
    · rw [(handleGatewayMessage_components s tr.boundClient frame).1]; exact hu
    · intro c v hmem
      rcases handleGatewayMessage_cb s tr.boundClient frame c v hmem with ⟨obj, br, hb2, hh2, hcb⟩
      refine ⟨tr.boundClient, obj, br, ?_, hb2, hh2, hcb.symm⟩
      intro hx
      rw [hx] at hb2
      rw [hb2] at hu
      cases hu
    · intro x tr2 h hbc
      rw [(handleGatewayMessage_components s tr.boundClient frame).2.1] at h
      exact ⟨tr2, h, hbc⟩
  | wsClosed tid =>
    rcases Option.eq_none_or_eq_some (alookup s.transports tid) with htr | ⟨tr, htr⟩ <;>
      simp only [htr] at hs
    · cases hs
    split at hs
    · cases hs
    rw [Option.some_inj, Prod.mk.injEq] at hs
    obtain ⟨rfl, rfl⟩ := hs
    refine ⟨?_, ?_, ?_, fun t tm heq => by cases heq⟩
    · rw [wsCloseHandler_bridges]; exact hu
    · simp
    · intro x tr2 h hbc
      rcases wsCloseHandler_transports_prov s tid tr x tr2 h with ⟨tr0, h0, hb0⟩
      exact ⟨tr0, h0, hb0.trans hbc⟩
  | wsError tid =>
    rcases Option.eq_none_or_eq_some (alookup s.transports tid) with htr | ⟨tr, htr⟩ <;>
      simp only [htr] at hs
    · cases hs
    split at hs
    · cases hs
    rw [Option.some_inj, Prod.mk.injEq] at hs
    obtain ⟨rfl, rfl⟩ := hs
    exact ⟨hu, fun c v hmem => absurd hmem (by simp),
      fun x tr2 h hbc => ⟨tr2, h, hbc⟩, fun t tm heq => by cases heq⟩
  | timerFire t =>
    rcases Option.eq_none_or_eq_some (alookup s.timers t) with htm | ⟨tm, htm⟩ <;>
      simp only [htm] at hs
    · cases hs
    split at hs
    · cases hs
    rcases Bool.eq_false_or_eq_true (alookup (modifyTimer s t fun x =>
        { x with fired := true }).bridges tm.client).isSome with hmap | hmap <;>
      rw [hmap] at hs <;> simp only [if_true, Bool.false_eq_true, if_false] at hs
    · -- mapped: reconnect happens for tm.client, which cannot be cid
      rw [Option.some_inj] at hs
      have h1 : (connectToGateway (modifyTimer s t fun x => { x with fired := true })
        tm.client).1 = s2 := congrArg Prod.fst hs
      have h2 : (connectToGateway (modifyTimer s t fun x => { x with fired := true })
        tm.client).2 = os := congrArg Prod.snd hs
      subst h1; subst h2
      have hclne : tm.client ≠ cid := by
        intro hx
        rw [modifyTimer_bridges, hx, hu] at hmap
        cases hmap
      refine ⟨?_, ?_, ?_, ?_⟩
      · rw [connectToGateway_bridges, modifyTimer_bridges]; exact hu
      · intro c v hmem
        rw [connectToGateway_snd] at hmem
        cases hmem
      · intro x tr2 h hbc
        rcases connectToGateway_prov _ tm.client x tr2 h with ⟨tr0, h0, hb0⟩ | hcl
        · rw [modifyTimer_transports] at h0
          exact ⟨tr0, h0, hb0.trans hbc⟩
        · rw [hcl] at hbc
          exact absurd hbc hclne
      · intro t2 tm2 heq htm2 hcl2
        cases heq
        rw [htm] at htm2
        cases htm2
        exact absurd hcl2 hclne
    · -- not mapped: the timer fires as a pure no-op
      rw [Option.some_inj, Prod.mk.injEq] at hs
      obtain ⟨rfl, rfl⟩ := hs
      refine ⟨?_, ?_, ?_, ?_⟩
      · rw [modifyTimer_bridges]; exact hu
      · intro c v hmem
        cases hmem
      · intro x tr2 h hbc
        rw [modifyTimer_transports] at h
        exact ⟨tr2, h, hbc⟩
      · intro t2 tm2 heq htm2 hcl2
        rfl
  | tick d =>
    rw [Option.some_inj, Prod.mk.injEq] at hs
    obtain ⟨rfl, rfl⟩ := hs
    exact ⟨hu, fun c v hmem => absurd hmem (by simp),
      fun x tr2 h hbc => ⟨tr2, h, hbc⟩, fun t tm heq => by cases heq⟩

theorem modifyObj_nextTimer (s : State) (o : Nat) (f : BridgeRecord → BridgeRecord) :
    (modifyObj s o f).nextTimer = s.nextTimer := by
  unfold modifyObj; cases alookup s.heap o <;> rfl

theorem modifyTransport_nextTimer (s : State) (tid : Nat) (f : TransportRec → TransportRec) :
    (modifyTransport s tid f).nextTimer = s.nextTimer := by
  unfold modifyTransport; cases alookup s.transports tid <;> rfl

theorem modifyTimer_timers_self (s : State) (t : Nat) (f : TimerRec → TimerRec)
    (tm : TimerRec) (h : alookup s.timers t = some tm) :
    alookup (modifyTimer s t f).timers t = some (f tm) := by
  unfold modifyTimer; rw [h]; exact alookup_aset_self _ _ _

/-- Lemma: a whole event schedule run while a clientId is unmapped, with no
createBridge for it, keeps it unmapped, attributes every delivered callback
to a bridge mapped for another clientId at delivery time, fires its timers
as no-ops, and never creates a transport bound to it. -/
theorem runTrace_quiescent (evs : List MEvent) :
    ∀ (s : State) (tr : List (State × MEvent × List Output)) (s2 : State) (cid : String),
    alookup s.bridges cid = none →
    (∀ cb, MEvent.create cid cb ∉ evs) →
    runTrace s evs = some (tr, s2) →
    alookup s2.bridges cid = none ∧
    (∀ st e os, (st, e, os) ∈ tr →
      (∀ c v, Output.cbCall c v ∈ os → ∃ cid2 obj br, cid2 ≠ cid ∧
        alookup st.bridges cid2 = some obj ∧ alookup st.heap obj = some br ∧ br.cb = c) ∧
      (∀ t tm, e = MEvent.timerFire t → alookup st.timers t = some tm →
        tm.client = cid → os = [])) ∧
    (∀ x tr2, alookup s2.transports x = some tr2 → tr2.boundClient = cid →
      ∃ tr0, alookup s.transports x = some tr0 ∧ tr0.boundClient = cid) := by
  induction evs with
  | nil =>
    intro s tr s2 cid hu hne hr
    unfold runTrace at hr
    rw [Option.some_inj, Prod.mk.injEq] at hr
    obtain ⟨rfl, rfl⟩ := hr
    exact ⟨hu, fun st e os hmem => absurd hmem (List.not_mem_nil _),
      fun x tr2 h hbc => ⟨tr2, h, hbc⟩⟩
  | cons e es ih =>
    intro s tr s2 cid hu hne hr
    unfold runTrace at hr
    rcases Option.eq_none_or_eq_some (step s e) with hstep | ⟨⟨s1, o1⟩, hstep⟩ <;>
      simp only [hstep] at hr
    · cases hr
    rcases Option.eq_none_or_eq_some (runTrace s1 es) with hrt | ⟨⟨tr1, s3⟩, hrt⟩ <;>
      simp only [hrt] at hr
    · cases hr
    rw [Option.some_inj, Prod.mk.injEq] at hr
    obtain ⟨rfl, rfl⟩ := hr
    have hene : ∀ cb, e ≠ MEvent.create cid cb := by
      intro cb hx
      exact hne cb (by rw [hx]; exact List.mem_cons_self _ _)
    obtain ⟨q1, q2, q3, q4⟩ := step_quiescent s s1 cid e o1 hu hene hstep
    have hnes : ∀ cb, MEvent.create cid cb ∉ es :=
      fun cb hmem => hne cb (List.mem_cons_of_mem _ hmem)
    obtain ⟨r1, r2, r3⟩ := ih s1 tr1 s3 cid q1 hnes hrt
    refine ⟨r1, ?_, ?_⟩
    · intro st e2 os hmem
      rcases List.mem_cons.mp hmem with heq | hmem2
      · rw [Prod.mk.injEq, Prod.mk.injEq] at heq
        obtain ⟨rfl, rfl, rfl⟩ := heq
        exact ⟨q2, q4⟩
      · exact r2 st e2 os hmem2
    · intro x tr2 h hbc
      rcases r3 x tr2 h hbc with ⟨trm, hm, hbm⟩
      exact q3 x trm hm hbm

/-- C5: closeBridge is idempotent and effect-free on an absent clientId; on a
live bridge it cancels the recorded reconnect timer, closes the transport
(emitting only the close request, never throwing in the model, wsClose being
the only effect) and removes the map entry; and after the final closeBridge
of a clientId, as long as it is not re-created, every delivered callback
belongs to a bridge mapped for a different clientId, every timer for the
closed clientId fires with no outputs, and no transport bound to the closed
clientId is ever created. -/
theorem c5_closeBridge_idempotent_quiescent :
    (∀ s cid, alookup s.bridges cid = none → closeBridge s cid = (s, [])) ∧
    (∀ s cid obj br, alookup s.bridges cid = some obj → alookup s.heap obj = some br →
      alookup (closeBridge s cid).1.bridges cid = none ∧
      (∀ t tm, br.reconnectTimeout = some t → alookup s.timers t = some tm →
        alookup (closeBridge s cid).1.timers t = some { tm with cancelled := true }) ∧
      (∀ tid, br.ws = some tid → (closeBridge s cid).2 = [Output.wsClose tid]) ∧
      (br.ws = none → (closeBridge s cid).2 = [])) ∧
    (∀ evs s tr s2 cid, alookup s.bridges cid = none →
      (∀ cb, MEvent.create cid cb ∉ evs) → runTrace s evs = some (tr, s2) →
      (∀ st e os, (st, e, os) ∈ tr →
        (∀ c v, Output.cbCall c v ∈ os → ∃ cid2 obj br, cid2 ≠ cid ∧
          alookup st.bridges cid2 = some obj ∧ alookup st.heap obj = some br ∧
          br.cb = c) ∧
        (∀ t tm, e = MEvent.timerFire t → alookup st.timers t = some tm →
          tm.client = cid → os = [])) ∧
      (∀ x tr2, alookup s2.transports x = some tr2 → tr2.boundClient = cid →
        ∃ tr0, alookup s.transports x = some tr0 ∧ tr0.boundClient = cid)) := by
  refine ⟨?_, ?_, ?_⟩
  · intro s cid hu
    unfold closeBridge
    simp only [hu]
  · intro s cid obj br hb hh
    refine ⟨?_, ?_, ?_, ?_⟩
    · rw [closeBridge_bridges_lookup]
      simp
    · intro t tm hT htm
      unfold closeBridge
      simp only [hb, hh, hT]
      rcases Option.eq_none_or_eq_some br.ws with h4 | ⟨tid, h4⟩ <;> simp only [h4]
      · exact modifyTimer_timers_self s t _ tm htm
      · show alookup (modifyTransport (modifyTimer s t _) tid _).timers t = _
        rw [modifyTransport_timers]
        exact modifyTimer_timers_self s t _ tm htm
    · intro tid h4
      unfold closeBridge
      simp only [hb, hh, h4]
    · intro h4
      unfold closeBridge
      simp only [hb, hh, h4]
  · intro evs s tr s2 cid hu hne hr
    exact ⟨(runTrace_quiescent evs s tr s2 cid hu hne hr).2.1,
           (runTrace_quiescent evs s tr s2 cid hu hne hr).2.2⟩

/-- C5 witness: idempotence on an absent id, the close effects on a concrete
bridge with an armed reconnect timer, and quiescence of a concrete schedule
after the final closeBridge. -/
theorem c5_closeBridge_idempotent_quiescent_witness :
    (alookup initEx.bridges "c1" = none ∧ closeBridge initEx "c1" = (initEx, [])) ∧
    (alookup (stateAfter [MEvent.create "c1" 7, MEvent.wsOpen 0,
        MEvent.wsClosed 0]).bridges "c1" = some 0 ∧
     alookup (stateAfter [MEvent.create "c1" 7, MEvent.wsOpen 0,
        MEvent.wsClosed 0]).heap 0 = some closedBr ∧
     alookup (closeBridge (stateAfter [MEvent.create "c1" 7, MEvent.wsOpen 0,
        MEvent.wsClosed 0]) "c1").1.bridges "c1" = none ∧
     alookup (closeBridge (stateAfter [MEvent.create "c1" 7, MEvent.wsOpen 0,
        MEvent.wsClosed 0]) "c1").1.timers 0 = some { armedTimer with cancelled := true } ∧
     (closeBridge (stateAfter [MEvent.create "c1" 7, MEvent.wsOpen 0,
        MEvent.wsClosed 0]) "c1").2 = []) ∧
    (∃ p, runTrace (stateAfter c6Events)
        [MEvent.tick 5000, MEvent.send "c1" historyMsg] = some p ∧
      (∀ st e os, (st, e, os) ∈ p.1 →
        (∀ c v, Output.cbCall c v ∈ os → ∃ cid2 obj br, cid2 ≠ "c1" ∧
          alookup st.bridges cid2 = some obj ∧ alookup st.heap obj = some br ∧
          br.cb = c) ∧
        (∀ t tm, e = MEvent.timerFire t → alookup st.timers t = some tm →
          tm.client = "c1" → os = [])) ∧
      (∀ x tr2, alookup p.2.transports x = some tr2 → tr2.boundClient = "c1" →
        ∃ tr0, alookup (stateAfter c6Events).transports x = some tr0 ∧
          tr0.boundClient = "c1")) := by
  have hne : ∀ cb, MEvent.create "c1" cb ∉
      [MEvent.tick 5000, MEvent.send "c1" historyMsg] := by
    intro cb hmem
    rcases List.mem_cons.mp hmem with h | hmem2
    · cases h
    rcases List.mem_cons.mp hmem2 with h | h3
    · cases h
    · exact absurd h3 (List.not_mem_nil _)
  refine ⟨⟨rfl, c5_closeBridge_idempotent_quiescent.1 initEx "c1" rfl⟩, ?_, ?_⟩
  · have h := c5_closeBridge_idempotent_quiescent.2.1
      (stateAfter [MEvent.create "c1" 7, MEvent.wsOpen 0, MEvent.wsClosed 0]) "c1" 0 closedBr
      rfl rfl
    exact ⟨rfl, rfl, h.1, h.2.1 0 armedTimer rfl rfl, h.2.2.2 rfl⟩
  · exact ⟨_, rfl, c5_closeBridge_idempotent_quiescent.2.2
      [MEvent.tick 5000, MEvent.send "c1" historyMsg] (stateAfter c6Events) _ _ "c1"
      rfl hne rfl⟩

/-- C6 counterexample: in the replace race (closeBridge then createBridge
before the superseded transport's close event), the close event of the old
transport arms a reconnect timer on the detached bridge object; a closeBridge
issued afterwards does not cancel that timer (cancelled stays false and the
firing is still schedulable after the delay), refuting the claim that a
closeBridge issued before the timer fires cancels it. -/
theorem c6_counterexample :
    (run initEx c6Events).map (fun p =>
      ((alookup p.1.timers 0).map (fun tm => (tm.client, tm.cancelled, tm.fired)),
       alookup p.1.bridges "c1")) = some (some ("c1", false, false), none) ∧
    (run initEx (c6Events ++ [MEvent.tick 5000, MEvent.timerFire 0])).isSome = true :=
  ⟨rfl, rfl⟩

/-- C6 (amended): a transport close event for a clientId still mapped arms
exactly one reconnect timer with delay 5000 and no other effect on the timer
set; a timer can only fire once, uncancelled, and no earlier than its delay
after arming; firing a timer whose clientId is unmapped marks it fired and
does nothing else; closeBridge cancels the timer recorded on the clientId's
current bridge record (a timer armed by a superseded transport's close event
is recorded on the detached record and survives); and for a session that
stays closed no transport bound to it is ever created. -/
theorem c6_reconnect_timer_contract :
    (∀ s tid tr s2 os, alookup s.transports tid = some tr →
      (alookup s.bridges tr.boundClient).isSome = true →
      step s (MEvent.wsClosed tid) = some (s2, os) →
      os = [] ∧
      alookup s2.timers s.nextTimer = some
        { client := tr.boundClient, delay := 5000, armedAt := s.now,
          cancelled := false, fired := false } ∧
      s2.nextTimer = s.nextTimer + 1 ∧
      (∀ t, t ≠ s.nextTimer → alookup s2.timers t = alookup s.timers t)) ∧
    (∀ s t p, step s (MEvent.timerFire t) = some p →
      ∃ tm, alookup s.timers t = some tm ∧ tm.cancelled = false ∧ tm.fired = false ∧
        tm.armedAt + tm.delay ≤ s.now) ∧
    (∀ s t tm, s.diverged = false → alookup s.timers t = some tm →
      tm.cancelled = false → tm.fired = false → tm.armedAt + tm.delay ≤ s.now →
      alookup s.bridges tm.client = none →
      step s (MEvent.timerFire t) =
        some (modifyTimer s t (fun x => { x with fired := true }), [])) ∧
    (∀ s cid obj br t tm, alookup s.bridges cid = some obj →
      alookup s.heap obj = some br → br.reconnectTimeout = some t →
      alookup s.timers t = some tm →
      alookup (closeBridge s cid).1.timers t = some { tm with cancelled := true }) ∧
    (∀ evs s tr s2 cid, alookup s.bridges cid = none →
      (∀ cb, MEvent.create cid cb ∉ evs) → runTrace s evs = some (tr, s2) →
      ∀ x tr2, alookup s2.transports x = some tr2 → tr2.boundClient = cid →
        ∃ tr0, alookup s.transports x = some tr0 ∧ tr0.boundClient = cid) := by
  refine ⟨?_, ?_, ?_, ?_, ?_⟩
  · intro s tid tr s2 os htr hmap hs
    unfold step at hs
    rcases Bool.eq_false_or_eq_true s.diverged with hdv | hdv <;> rw [hdv] at hs
    case inl => simp at hs
    simp only [Bool.false_eq_true, if_false] at hs
    simp only [htr] at hs
    split at hs
    · cases hs
    rw [Option.some_inj, Prod.mk.injEq] at hs
    obtain ⟨rfl, rfl⟩ := hs
    refine ⟨rfl, ?_, ?_, ?_⟩
    · unfold wsCloseHandler
      have hmap1 : (alookup (modifyObj s tr.boundObj fun b =>
          { b with ws := none, authenticated := false }).bridges tr.boundClient).isSome
          = true := by
        rw [modifyObj_bridges]; exact hmap
      simp only [hmap1, if_true]
      rw [modifyTransport_timers, modifyObj_timers]
      simp only [modifyObj_timers, modifyObj_nextTimer, modifyObj_now]
      exact alookup_aset_self _ _ _
    · unfold wsCloseHandler
      have hmap1 : (alookup (modifyObj s tr.boundObj fun b =>
          { b with ws := none, authenticated := false }).bridges tr.boundClient).isSome
          = true := by
        rw [modifyObj_bridges]; exact hmap
      simp only [hmap1, if_true]
      rw [modifyTransport_nextTimer, modifyObj_nextTimer]
      simp only [modifyObj_nextTimer]
    · intro t ht
      unfold wsCloseHandler
      have hmap1 : (alookup (modifyObj s tr.boundObj fun b =>
          { b with ws := none, authenticated := false }).bridges tr.boundClient).isSome
          = true := by
        rw [modifyObj_bridges]; exact hmap
      simp only [hmap1, if_true]
      rw [modifyTransport_timers, modifyObj_timers]
      simp only [modifyObj_timers, modifyObj_nextTimer]
      exact alookup_aset_ne _ _ _ _ (fun hx => ht hx.symm)
  · intro s t p hs
    unfold step at hs
    rcases Bool.eq_false_or_eq_true s.diverged with hdv | hdv <;> rw [hdv] at hs
    case inl => simp at hs
    simp only [Bool.false_eq_true, if_false] at hs
    rcases Option.eq_none_or_eq_some (alookup s.timers t) with htm | ⟨tm, htm⟩ <;>
      simp only [htm] at hs
    · cases hs
    split at hs
    · cases hs
    case isFalse hcond =>
      simp only [Bool.or_eq_true, decide_eq_true_eq, not_or, Bool.not_eq_true] at hcond
      exact ⟨tm, htm, hcond.1.1, hcond.1.2, Nat.not_lt.mp hcond.2⟩
  · intro s t tm hdv htm hc hf hle hu
    unfold step
    simp only [hdv, Bool.false_eq_true, if_false, htm]
    have hcond : (tm.cancelled || tm.fired || decide (s.now < tm.armedAt + tm.delay))
        = false := by
      rw [hc, hf, decide_eq_false (Nat.not_lt.mpr hle)]
      rfl
    simp only [hcond, Bool.false_eq_true, if_false]
    have hmapf : (alookup (modifyTimer s t fun x =>
        { x with fired := true }).bridges tm.client).isSome = false := by
      rw [modifyTimer_bridges, hu]; rfl
    simp only [hmapf, Bool.false_eq_true, if_false]
  · intro s cid obj br t tm hb hh hT htm
    unfold closeBridge
    simp only [hb, hh, hT]
    rcases Option.eq_none_or_eq_some br.ws with h4 | ⟨tid, h4⟩ <;> simp only [h4]
    · exact modifyTimer_timers_self s t _ tm htm
    · show alookup (modifyTransport (modifyTimer s t _) tid _).timers t = _
      rw [modifyTransport_timers]
      exact modifyTimer_timers_self s t _ tm htm
  · intro evs s tr s2 cid hu hne hr
    exact (runTrace_quiescent evs s tr s2 cid hu hne hr).2.2

/-- C6 witness: concrete instantiation of the amended reconnect-timer
contract. The close event of transport 0 on a live session arms precisely
timer 0 with delay 5000 (the next slot stays empty); firing the timer of the
closed-for-good session of c6Events after the delay only marks it fired and
emits nothing; and closeBridge on the live session cancels the timer recorded
on its current bridge record. -/
theorem c6_reconnect_timer_contract_witness :
    (alookup (stateAfter [MEvent.create "c1" 7, MEvent.wsOpen 0,
        MEvent.wsClosed 0]).timers 0 = some armedTimer ∧
     (stateAfter [MEvent.create "c1" 7, MEvent.wsOpen 0,
        MEvent.wsClosed 0]).nextTimer = 1 ∧
     alookup (stateAfter [MEvent.create "c1" 7, MEvent.wsOpen 0,
        MEvent.wsClosed 0]).timers 1 = none) ∧
    step (stateAfter (c6Events ++ [MEvent.tick 5000])) (MEvent.timerFire 0) =
      some (modifyTimer (stateAfter (c6Events ++ [MEvent.tick 5000])) 0
        (fun x => { x with fired := true }), []) ∧
    alookup (closeBridge (stateAfter [MEvent.create "c1" 7, MEvent.wsOpen 0,
        MEvent.wsClosed 0]) "c1").1.timers 0 =
      some { armedTimer with cancelled := true } := by
  refine ⟨?_, ?_, ?_⟩
  · have h := c6_reconnect_timer_contract.1
      (stateAfter [MEvent.create "c1" 7, MEvent.wsOpen 0]) 0
      { boundClient := "c1", boundObj := 0, openFired := true,
        closeRequested := false, closeFired := false }
      (stateAfter [MEvent.create "c1" 7, MEvent.wsOpen 0, MEvent.wsClosed 0]) []
      rfl rfl rfl
    exact ⟨h.2.1, h.2.2.1, (h.2.2.2 1 (by decide)).trans rfl⟩
  · exact c6_reconnect_timer_contract.2.2.1
      (stateAfter (c6Events ++ [MEvent.tick 5000])) 0 armedTimer
      rfl rfl rfl rfl (by decide) rfl
  · exact c6_reconnect_timer_contract.2.2.2.1
      (stateAfter [MEvent.create "c1" 7, MEvent.wsOpen 0, MEvent.wsClosed 0])
      "c1" 0 closedBr 0 armedTimer rfl rfl rfl rfl
